import Mathlib

/-!
Verification development for the scene/prompt fallback-cascade engine of
`studio_data_tools` (`studio_data_tools/core/prompt_generator.py` together
with the data modules `prompts/general_scenes.py` and `prompts/templates.py`).

Python strings are modelled as `List Char`; Python string methods used by the
source (`strip`, `isdigit`, `startswith`, `split`, slicing, `in`, `lower`) are
given as executable definitions below.  The external text-generation service
is modelled as an oracle value of type `Except PyErr PyStr` (one per call
site); `random.choice` / `random.randint` take an extra `Nat` argument that
selects the draw, and fail exactly where the Python functions raise (empty
sequence, empty range).  Python `try/except` is `pyTry`.
-/

/-- A Python `str`, modelled as its list of characters. -/
abbrev PyStr := List Char

/-- A Python exception, modelled by its message. -/
abbrev PyErr := String

/-- Whitespace as recognised by Python `str.strip()` / `str.split()`
(space, tab, newline, carriage return, vertical tab, form feed). -/
def isWs (c : Char) : Bool :=
  c.toNat = 32 || c.toNat = 9 || c.toNat = 10 || c.toNat = 13 ||
  c.toNat = 11 || c.toNat = 12

/-- ASCII decimal digit test, as used by `str.isdigit` on the texts involved. -/
def isDigitCh (c : Char) : Bool :=
  48 ≤ c.toNat && c.toNat ≤ 57

/-- Python `s[0].isdigit()` guarded by non-emptiness (call sites only reach it
on non-empty strings). -/
def firstIsDigit : PyStr → Bool
  | [] => false
  | c :: _ => isDigitCh c

/-- Python `str.isdigit()`: non-empty and all digits. -/
def pyIsDigit (l : PyStr) : Bool := !l.isEmpty && l.all isDigitCh

/-- Python `str.lower()` (ASCII case folding, as in all pool keys involved). -/
def pyLower (l : PyStr) : PyStr := l.map Char.toLower

/-- Python `str.startswith(p)` / prefix test. -/
def beginsWith : PyStr → PyStr → Bool
  | [], _ => true
  | _ :: _, [] => false
  | p :: ps, a :: rest => p == a && beginsWith ps rest

/-- Python `needle in hay` (substring containment). -/
def isSubstr (needle : PyStr) : PyStr → Bool
  | [] => needle.isEmpty
  | a :: rest => beginsWith needle (a :: rest) || isSubstr needle rest

/-- The text after the first occurrence of `sep`: `s.split(sep, 1)[1]` when the
separator occurs (`none` when it does not, where Python would keep the whole
string in `[0]` and index `[1]` would fail). -/
def afterFirst (sep : PyStr) : PyStr → Option PyStr
  | [] => none
  | a :: rest =>
    if beginsWith sep (a :: rest) then some ((a :: rest).drop sep.length)
    else afterFirst sep rest

/-- Python `str.split(c)` for a single-character separator (keeps empty
fields, as Python does). -/
def splitOnChar (c : Char) : PyStr → List PyStr
  | [] => [[]]
  | a :: rest =>
    if a = c then [] :: splitOnChar c rest
    else
      match splitOnChar c rest with
      | [] => [[a]]
      | h :: t => (a :: h) :: t

/-- Python `str.strip()`: drop leading and trailing whitespace. -/
def pyStrip (l : PyStr) : PyStr :=
  ((l.dropWhile isWs).reverse.dropWhile isWs).reverse

/-- Python `str.strip(chars)`: drop leading and trailing characters drawn from
`cs`. -/
def pyStripChars (cs : PyStr) (l : PyStr) : PyStr :=
  ((l.dropWhile (cs.contains ·)).reverse.dropWhile (cs.contains ·)).reverse

/-- Python `str.replace('\n', ' ')`. -/
def pyReplaceNlSpace (l : PyStr) : PyStr :=
  l.map (fun c => if c = '\n' then ' ' else c)

/-- Python `list(set(l))`: the distinct elements of `l`.  Python's set
iteration order is unspecified; this model keeps the last occurrence order. -/
def pySetList : List PyStr → List PyStr
  | [] => []
  | x :: rest => if x ∈ rest then pySetList rest else x :: pySetList rest

/-- Helper for `pySplitWs`: accumulates the current word (reversed). -/
def pySplitWsAux (cur : PyStr) : PyStr → List PyStr
  | [] => if cur.isEmpty then [] else [cur.reverse]
  | c :: rest =>
    if isWs c then
      if cur.isEmpty then pySplitWsAux [] rest
      else cur.reverse :: pySplitWsAux [] rest
    else pySplitWsAux (c :: cur) rest

/-- Python `str.split()` with no argument: split on whitespace runs, no empty
tokens. -/
def pySplitWs (l : PyStr) : List PyStr := pySplitWsAux [] l

/-- The ASCII digit character for `k % 10`-style values. -/
def digitOf : Nat → Char
  | 0 => '0' | 1 => '1' | 2 => '2' | 3 => '3' | 4 => '4'
  | 5 => '5' | 6 => '6' | 7 => '7' | 8 => '8' | _ => '9'

/-- Fuel-driven decimal rendering (structural so that the kernel can
evaluate it; `natChars` supplies enough fuel). -/
def natCharsAux : Nat → Nat → List Char
  | 0, _ => []
  | fuel + 1, n =>
    if n < 10 then [digitOf n]
    else natCharsAux fuel (n / 10) ++ [digitOf (n % 10)]

/-- Python `str(n)` for a natural number (decimal digits). -/
def natChars (n : Nat) : List Char := natCharsAux (n + 1) n

/-- Python `random.choice(l)` with an injected draw `r`: fails on an empty
sequence, otherwise returns the element at `r mod len(l)`. -/
def pyChoice {α : Type} : (l : List α) → Nat → Except PyErr α
  | [], _ => .error "Cannot choose from an empty sequence"
  | a :: t, r => .ok ((a :: t).get ⟨r % (t.length + 1), Nat.mod_lt _ t.length.succ_pos⟩)

/-- Python `random.randint(lo, hi)` with an injected draw `r`: fails on an
empty range, otherwise returns a value in `[lo, hi]`. -/
def pyRandint (lo hi r : Nat) : Except PyErr Nat :=
  if hi < lo then .error "empty range for randrange"
  else .ok (lo + r % (hi - lo + 1))

/-- Python `try: body except: handler` where the handler ignores the raised
exception. -/
def pyTry {α : Type} (body handler : Except PyErr α) : Except PyErr α :=
  match body with
  | .ok v => .ok v
  | .error _ => handler

/-- Structural effectful map over a list in the `Except` monad (a Python
`for` loop that appends one result per iteration). -/
def exceptMapM {α β : Type} (f : α → Except PyErr β) : List α → Except PyErr (List β)
  | [] => .ok []
  | x :: xs => do
    let y ← f x
    let ys ← exceptMapM f xs
    pure (y :: ys)

/-- A Python dict value in a prompt record: a string or an integer count. -/
inductive PyVal : Type
  | s (v : PyStr)
  | i (v : Nat)
deriving DecidableEq

/-- A Python dict as returned by the prompt-producing operations. -/
abbrev PromptRecord := List (String × PyVal)

/-- Whether a record has a field named `k`. -/
def hasKey (rec : PromptRecord) (k : String) : Bool :=
  rec.any (fun e => e.1 == k)

/-- Python `d[k] = v`: overwrite an existing field or append a new one. -/
def pySetItem (rec : PromptRecord) (k : String) (v : PyVal) : PromptRecord :=
  if rec.any (fun e => e.1 == k) then
    rec.map (fun e => if e.1 == k then (k, v) else e)
  else rec ++ [(k, v)]

/-! ## Static data (`prompts/general_scenes.py`), and the spec-modelled pool -/

/-- `GENERAL_SCENES` from `prompts/general_scenes.py`. -/
def GENERAL_SCENES : List PyStr :=
  ["urban street with litter".toList,
   "park area".toList,
   "kitchen counter".toList,
   "office desk".toList,
   "parking lot".toList,
   "riverside or beach".toList,
   "grassy field".toList,
   "restaurant table".toList,
   "store shelf".toList,
   "bedroom floor".toList]

/-- `[scene.format(object=object_name) for scene in DEFAULT_SCENES]`: the 18
`DEFAULT_SCENES` templates of `prompts/general_scenes.py` with their single
placeholder interpolated. -/
def default_scenes_for (o : PyStr) : List PyStr :=
  ["kitchen counter with ".toList ++ o,
   "bathroom corner with ".toList ++ o,
   "office desk with ".toList ++ o,
   "bedroom with ".toList ++ o ++ " on nightstand".toList,
   "storage room with ".toList ++ o,
   "apartment hallway with ".toList ++ o,
   "attic with ".toList ++ o,
   "classroom with ".toList ++ o,
   "restaurant booth with ".toList ++ o,
   "hotel room with ".toList ++ o,
   "urban street with ".toList ++ o,
   "park bench with ".toList ++ o,
   "parking lot with ".toList ++ o,
   "beach with ".toList ++ o,
   "backyard with ".toList ++ o,
   "bus stop with ".toList ++ o,
   "alleyway with ".toList ++ o,
   "highway underpass with ".toList ++ o]

/-- `ENVIRONMENT_TYPES` (20 entries). -/
def ENVIRONMENT_TYPES : List PyStr :=
  ["kitchen".toList, "bathroom".toList, "office".toList, "bedroom".toList,
   "living room".toList, "hallway".toList, "basement".toList, "attic".toList,
   "garage".toList, "classroom".toList, "restaurant".toList, "store".toList,
   "urban".toList, "park".toList, "roadside".toList, "beach".toList,
   "forest".toList, "sidewalk".toList, "backyard".toList, "alley".toList]

/-- `SURFACE_TYPES` (17 entries). -/
def SURFACE_TYPES : List PyStr :=
  ["tile".toList, "linoleum".toList, "carpet".toList, "hardwood".toList,
   "concrete".toList, "counter".toList, "table".toList, "desk".toList,
   "shelf".toList, "asphalt".toList, "grass".toList, "sand".toList,
   "gravel".toList, "mud".toList, "pavement".toList, "dirt".toList,
   "stone".toList]

/-- `LIGHTING_CONDITIONS` (12 entries). -/
def LIGHTING_CONDITIONS : List PyStr :=
  ["dimly lit".toList, "brightly lit".toList, "naturally lit".toList,
   "artificially lit".toList, "shadowy".toList, "sunlit".toList,
   "fluorescent-lit".toList, "evening".toList, "morning".toList,
   "noon".toList, "dusk".toList, "dawn".toList]

/-- The `lighting_vars` local list of `_create_default_dynamic_scenes`
(8 entries). -/
def lighting_variations : List PyStr :=
  ["underexposed".toList, "overexposed".toList, "shadow-filled".toList,
   "harshly lit".toList, "unevenly lit".toList, "poorly lit".toList,
   "backlit".toList, "side-lit".toList]

/-- Modelled from the spec: the module
`studio_data_tools/core/prompts/object_scenes.py`, which defines
`OBJECT_SCENE_MAP`, is not among the provided sources (only its import and
call sites are).  The spec fixes that it is a static, insertion-ordered,
read-only mapping from case-folded object-name keys to ordered scene lists,
that `"empty can"` is a key with exactly 10 predefined scenes, and that
`"plastic bottle"` is also a supported key; the individual scene strings are
not pinned down by the spec, so representative placeholder descriptions are
used here. -/
def OBJECT_SCENE_MAP : List (PyStr × List PyStr) :=
  [("empty can".toList,
    ["crushed on a city sidewalk next to a storm drain".toList,
     "lying on its side on a park lawn near a bench".toList,
     "on a kitchen counter beside the sink".toList,
     "at the edge of an office desk next to a keyboard".toList,
     "on the asphalt of a parking lot near a curb".toList,
     "half buried in sand on a beach".toList,
     "on a restaurant table among finished plates".toList,
     "on the floor of a garage near a workbench".toList,
     "on a concrete step outside an apartment entrance".toList,
     "in the grass beside a riverside walking path".toList]),
   ("plastic bottle".toList,
    ["floating at the edge of a pond among reeds".toList,
     "standing on a gym bench beside a towel".toList,
     "on the passenger seat of a parked car".toList,
     "lying in a gutter along a busy street".toList,
     "on a picnic table in a shaded park area".toList,
     "on a supermarket checkout counter".toList,
     "tucked into the side pocket of a backpack on a trail".toList,
     "on a windowsill of a sunlit classroom".toList,
     "next to a recycling bin in an office corridor".toList,
     "on the tiled floor of a bathroom corner".toList])]

/-- Python dict lookup `pool[k]` / membership `k in pool` over the
insertion-ordered pool. -/
def dictLookup (pool : List (PyStr × List PyStr)) (k : PyStr) : Option (List PyStr) :=
  (pool.find? (fun e => e.1 == k)).map (fun e => e.2)

/-! ## ObjectMatcher (`_find_matching_scenes`, lines 87-118) -/

/-- Tier 2 predicate of `_find_matching_scenes` (lines 104-108): the
case-folded key contains or is contained in the case-folded object name. -/
def substr_match (objectNameLower : PyStr) (e : PyStr × List PyStr) : Bool :=
  isSubstr (pyLower e.1) objectNameLower || isSubstr objectNameLower (pyLower e.1)

/-- Tier 3 predicate (lines 110-115): the case-folded word sets intersect. -/
def word_overlap_match (objectNameLower : PyStr) (e : PyStr × List PyStr) : Bool :=
  (pySplitWs (pyLower e.1)).any (fun w => (pySplitWs objectNameLower).any (fun v => v == w))

/-- `_find_matching_scenes` (lines 87-118), parameterised by the pool it
consults.  Tier 1: exact dict lookup of the case-folded name.  Tier 2: first
key in pool order matching `substr_match`.  Tier 3: first key in pool order
matching `word_overlap_match`.  Otherwise empty. -/
def find_matching_scenes_in (pool : List (PyStr × List PyStr)) (objectName : PyStr) : List PyStr :=
  match dictLookup pool (pyLower objectName) with
  | some scenes => scenes
  | none =>
    match pool.find? (substr_match (pyLower objectName)) with
    | some e => e.2
    | none =>
      match pool.find? (word_overlap_match (pyLower objectName)) with
      | some e => e.2
      | none => []

/-- `_find_matching_scenes` against the process-wide `OBJECT_SCENE_MAP`. -/
def find_matching_scenes (objectName : PyStr) : List PyStr :=
  find_matching_scenes_in OBJECT_SCENE_MAP objectName

/-! ## ResponseParser and scene generation (`generate_dynamic_scenes`,
`_create_default_dynamic_scenes`, `_create_fallback_scene`,
`generate_diverse_scenes`) -/

/-- The numbering-strip step of `generate_dynamic_scenes` (lines 171-176):
try the separators in order, use the first one found within the first five
characters, keep the stripped text after its first occurrence.  The `none`
branch of `afterFirst` is unreachable when the guard held (the separator
occurs in `scene.take 5`, hence in `scene`); Python's `split(sep, 1)[1]` is
total there. -/
def stripFirstSep : List PyStr → PyStr → PyStr
  | [], scene => scene
  | sep :: rest, scene =>
    if isSubstr sep (scene.take 5) then
      match afterFirst sep scene with
      | some post => pyStrip post
      | none => scene
    else stripFirstSep rest scene

/-- The separator list `['. ', ') ', '- ', ': ']`. -/
def numberingSeps : List PyStr :=
  [['.', ' '], [')', ' '], ['-', ' '], [':', ' ']]

/-- Lines 169-176: remove a leading enumeration marker when the line is longer
than two characters and starts with a digit. -/
def cleanNumbering (scene : PyStr) : PyStr :=
  if 2 < scene.length && firstIsDigit scene then stripFirstSep numberingSeps scene
  else scene

/-- The line comprehension of `generate_dynamic_scenes` (lines 159-160): keep
the stripped line when it is non-empty and not a `#` comment. -/
def parse_line_filter (line : PyStr) : Option PyStr :=
  if (pyStrip line).isEmpty || beginsWith ['#'] (pyStrip line) then none
  else some (pyStrip line)

/-- The cleanup loop body of `generate_dynamic_scenes` (lines 165-180): drop
empty, pure-digit and `#` lines, strip the enumeration marker, and keep the
result only when non-empty. -/
def parse_scene_clean (scene : PyStr) : Option PyStr :=
  if scene.isEmpty || pyIsDigit scene || beginsWith ['#'] scene then none
  else if (cleanNumbering scene).isEmpty then none
  else some (cleanNumbering scene)

/-- The parsing stage of `generate_dynamic_scenes` (lines 159-180): split the
raw response on line breaks, strip each line, drop empty and `#`-comment
lines, drop pure digit lines, strip enumeration markers, and keep only lines
that remain non-empty. -/
def parseDynamicSceneLines (raw : PyStr) : List PyStr :=
  ((splitOnChar '\n' raw).filterMap parse_line_filter).filterMap parse_scene_clean

/-- The parsing stage of `generate_diverse_scenes` (lines 272-288): same line
filter (additionally dropping pure digit lines up front), but the cleaned
line is appended unconditionally, and only a plain `'.'`-split plus a single
leading `-`/`*` bullet strip is applied. -/
def parseDiverseSceneLines (raw : PyStr) : List PyStr :=
  let sceneTexts := (splitOnChar '\n' raw).filterMap (fun line =>
    let s := pyStrip line
    if s.isEmpty || beginsWith ['#'] s || pyIsDigit s then none
    else some s)
  sceneTexts.map (fun scene =>
    let clean :=
      if firstIsDigit scene && 2 < scene.length then
        match afterFirst ['.'] scene with
        | some post => pyStrip post
        | none => scene
      else scene
    if beginsWith ['-'] clean || beginsWith ['*'] clean then
      pyStrip (clean.drop 1)
    else clean)

/-- `_create_fallback_scene` (lines 215-222): deterministic template scene
from modular indices of the requested position. -/
def create_fallback_scene (objectName : PyStr) (index : Nat) : PyStr :=
  let envIdx := (index * 3) % ENVIRONMENT_TYPES.length
  let condIdx := (index * 7) % LIGHTING_CONDITIONS.length
  let surfIdx := (index * 5) % SURFACE_TYPES.length
  LIGHTING_CONDITIONS.getD condIdx [] ++ " ".toList ++ ENVIRONMENT_TYPES.getD envIdx []
    ++ " with ".toList ++ SURFACE_TYPES.getD surfIdx [] ++ " and ".toList ++ objectName

/-- The padding loop of `generate_dynamic_scenes` (lines 183-184): the
`while len(scenes) < num_scenes` loop appends exactly one fallback scene per
iteration, so it runs exactly `num_scenes - len(scenes)` times; the counter
makes that structural. -/
def padLoop (objectName : PyStr) : Nat → List PyStr → List PyStr
  | 0, scenes => scenes
  | k + 1, scenes => padLoop objectName k (scenes ++ [create_fallback_scene objectName (scenes.length + 1)])

/-- Lines 183-186: pad with fallback scenes up to `numScenes`, then truncate. -/
def padScenes (objectName : PyStr) (numScenes : Nat) (scenes : List PyStr) : List PyStr :=
  (padLoop objectName (numScenes - scenes.length) scenes).take numScenes

/-- The variation loop of `_create_default_dynamic_scenes` (lines 201-211):
again one appended scene per iteration of the `while` loop. -/
def padDefaultLoop (defaults : List PyStr) : Nat → List PyStr → List PyStr
  | 0, acc => acc
  | k + 1, acc =>
    let lightVar := lighting_variations.getD (acc.length % lighting_variations.length) []
    let baseScene := defaults.getD (acc.length % defaults.length) []
    padDefaultLoop defaults k (acc ++ [lightVar ++ " ".toList ++ baseScene])

/-- `_create_default_dynamic_scenes` (lines 192-213). -/
def create_default_dynamic_scenes (objectName : PyStr) (numScenes : Nat) : List PyStr :=
  let defaults := default_scenes_for objectName
  let seed := defaults.take (min numScenes defaults.length)
  (padDefaultLoop defaults (numScenes - seed.length) seed).take numScenes

/-- `generate_dynamic_scenes` (lines 120-190) for a constructed generator
(the constructor guarantees `self.client is not None`; the `client is None`
`ValueError` is the configuration error outside the cascade).  `svc` is the
outcome of the one external call in the `try` block; any failure is caught
and answered with the default dynamic scenes. -/
def generate_dynamic_scenes (svc : Except PyErr PyStr) (objectName : PyStr) (numScenes : Nat) :
    Except PyErr (List PyStr) :=
  pyTry
    (do
      let text ← svc
      pure (padScenes objectName numScenes (parseDynamicSceneLines text)))
    (pure (create_default_dynamic_scenes objectName numScenes))

/-- `get_appropriate_scenes` (lines 59-85); the `use_llm` branch falls back to
the matcher on error, the matcher result falls back to `GENERAL_SCENES` when
empty. -/
def get_appropriate_scenes (objectName : PyStr) (useLlm : Bool) (svcDyn : Except PyErr PyStr) :
    List PyStr :=
  let matched :=
    let m := find_matching_scenes objectName
    if m.isEmpty then GENERAL_SCENES else m
  if useLlm then
    match generate_dynamic_scenes svcDyn objectName 10 with
    | .ok scenes => scenes
    | .error _ => matched
  else matched

/-- The diversity-guard step of `generate_simple_prompt` (lines 481-487): when
the generated batch has fewer than three distinct entries, extend it with five
default dynamic scenes and deduplicate through a set conversion. -/
def ensure_diverse (scenes : List PyStr) (objectName : PyStr) : List PyStr :=
  if (pySetList scenes).length < 3 then
    pySetList (scenes ++ create_default_dynamic_scenes objectName 5)
  else scenes

/-! ## Prompt templates (`prompts/templates.py`) and the cascade operations -/

/-- `FALLBACK_PROMPT_TEMPLATE.format(num_objects, object_name, scene_type)`. -/
def fallback_prompt_template (numObjects : Nat) (objectName sceneType : PyStr) : PyStr :=
  "\nAn amateur smartphone photo of ".toList ++ natChars numObjects ++ " ".toList
    ++ objectName ++ "(s) in a ".toList ++ sceneType
    ++ ".\nThe ".toList ++ objectName
    ++ "(s) blend naturally with the environment, varying in size from small to medium.\nObjects are randomly scattered throughout the scene, some partially visible or obscured by other elements.\nSome ".toList
    ++ objectName
    ++ "(s) appear in the foreground, others in the mid-ground or background at different depths.\nThe ".toList
    ++ objectName
    ++ "(s) are positioned at various heights and angles, creating a natural, unplanned arrangement.\nTypical smartphone shot with average white balance, some digital noise, uneven exposure.\nSlight camera shake, handheld shot with minor tilt, casual composition.\nUnprocessed, with standard colors and contrast.\nLooks like someone quickly took the photo without much attention to composition.\n".toList

/-- `ENHANCED_FALLBACK_PROMPT_TEMPLATE.format(num_objects, object_name,
scene_type)`. -/
def enhanced_fallback_prompt_template (numObjects : Nat) (objectName sceneType : PyStr) : PyStr :=
  "\nAn amateur smartphone photo of ".toList ++ natChars numObjects ++ " ".toList
    ++ objectName ++ "(s) in a ".toList ++ sceneType
    ++ ".\nThe ".toList ++ objectName
    ++ "(s) blend naturally with the surroundings, appearing as if they\x27ve been there for some time.\nObjects vary in size (some small, some medium) and are distributed randomly throughout the frame.\nSome ".toList
    ++ objectName
    ++ "(s) are partially hidden behind other elements or cut off by the frame edges.\nThe ".toList
    ++ objectName
    ++ "(s) are positioned at various distances from the camera - some close, some far away.\nObjects appear at different heights and positions within the scene, creating a natural, unplanned distribution.\nTypical smartphone shot with poor white balance, visible digital noise, uneven exposure.\nNoticeable camera shake, handheld shot with tilted horizon, casual composition.\nUnprocessed, with flat colors and low contrast.\nHarsh shadows or blown highlights, poor lighting conditions.\nLooks like someone quickly took the photo without much attention to composition or lighting.\n".toList

/-- The characters stripped from the inference response (line 351:
`strip('"\'')`). -/
def quoteChars : PyStr := ['\x22', '\x27']

/-- `infer_scene` (lines 304-365).  `hasClient` mirrors `self.client is None`;
`svcDyn` feeds the `generate_dynamic_scenes` attempt, `svcInf` the direct
scene-inference call of the fallback; `r0`-`r3` are the draws of the four
`random.choice` sites in source order. -/
def infer_scene (hasClient : Bool) (svcDyn svcInf : Except PyErr PyStr)
    (objectName : PyStr) (numObjects : Nat) (r0 r1 r2 r3 : Nat) : Except PyErr PyStr :=
  if !hasClient then
    pyChoice (get_appropriate_scenes objectName false svcDyn) r0
  else
    pyTry
      (do
        let scenes ← generate_dynamic_scenes svcDyn objectName 10
        pyChoice scenes r1)
      (pyTry
        (do
          let t ← svcInf
          let scene := pyReplaceNlSpace (pyStripChars quoteChars (pyStrip t))
          if (pySplitWs scene).length < 2 || 15 < (pySplitWs scene).length then
            pyChoice (create_default_dynamic_scenes objectName 10) r2
          else pure scene)
        (pyChoice ((default_scenes_for objectName).take 10) r3))

/-- `generate_realistic_prompt` (lines 367-447).  Note the `self.client is
None` branch uses `num_objects or random.randint(...)`, so a caller-supplied
count of `0` is falsy there and triggers the random draw, while the
client-present branch tests `is None`. -/
def generate_realistic_prompt (hasClient : Bool) (svc : Except PyErr PyStr)
    (objectName sceneType : PyStr) (numObjects : Option Nat)
    (minObjects maxObjects : Nat) (r : Nat) : Except PyErr PromptRecord :=
  if !hasClient then do
    let n ← match numObjects with
      | some k => if k = 0 then pyRandint minObjects maxObjects r else pure k
      | none => pyRandint minObjects maxObjects r
    pure [("prompt", PyVal.s (fallback_prompt_template n objectName sceneType)),
          ("scene", PyVal.s sceneType),
          ("object_count", PyVal.i n),
          ("object", PyVal.s objectName)]
  else do
    let n ← match numObjects with
      | some k => pure k
      | none => pyRandint minObjects maxObjects r
    pyTry
      (do
        let t ← svc
        pure [("prompt", PyVal.s t),
              ("scene", PyVal.s sceneType),
              ("object_count", PyVal.i n),
              ("object", PyVal.s objectName)])
      (pure [("prompt", PyVal.s (fallback_prompt_template n objectName sceneType)),
             ("scene", PyVal.s sceneType),
             ("object_count", PyVal.i n),
             ("object", PyVal.s objectName)])

/-- Lines 466-467 of `generate_simple_prompt`: default the object name to a
random pool key. -/
def simple_prompt_object (objectName : Option PyStr) (r0 : Nat) : Except PyErr PyStr :=
  match objectName with
  | none => pyChoice (OBJECT_SCENE_MAP.map Prod.fst) r0
  | some o => pure o

/-- Lines 469-470 of `generate_simple_prompt`: default the object count to
`random.randint(1, 3)`. -/
def simple_prompt_count (numObjects : Option Nat) (r1 : Nat) : Except PyErr Nat :=
  match numObjects with
  | none => pyRandint 1 3 r1
  | some k => pure k

/-- Lines 472-498 of `generate_simple_prompt`: determine the scene, through
the dynamic generation plus diversity guard when `use_llm` is set, falling
back to the first ten default dynamic scenes. -/
def simple_prompt_scene (object : PyStr) (sceneType : Option PyStr) (useLlm : Bool)
    (svcDyn : Except PyErr PyStr) (r2 r3 : Nat) : Except PyErr PyStr :=
  match sceneType with
  | some s => pure s
  | none =>
    if useLlm then
      pyTry
        (do
          let dynamicScenes ← generate_dynamic_scenes svcDyn object 10
          let dynamicScenes := ensure_diverse dynamicScenes object
          pyChoice dynamicScenes r2)
        (pyChoice ((default_scenes_for object).take 10) r3)
    else pyChoice ((default_scenes_for object).take 10) r3

/-- `generate_simple_prompt` (lines 449-507).  The `use_dynamic_scenes`
parameter is accepted but never read by the body, as in the source; `r0`-`r3`
are the draws of the `random.choice`/`random.randint` sites in source order. -/
def generate_simple_prompt (objectName : Option PyStr) (sceneType : Option PyStr)
    (numObjects : Option Nat) (useLlm : Bool) (useDynamicScenes : Bool)
    (svcDyn : Except PyErr PyStr) (r0 r1 r2 r3 : Nat) :
    Except PyErr (PyStr × PyStr × Nat) := do
  let object ← simple_prompt_object objectName r0
  let num ← simple_prompt_count numObjects r1
  let scene ← simple_prompt_scene object sceneType useLlm svcDyn r2 r3
  pure (enhanced_fallback_prompt_template num object scene, scene, num)

/-- The fixed photorealistic prompt line of `generate_simple_prompts`
(line 550). -/
def photoreal_prompt (scene : PyStr) : PyStr :=
  "Photorealistic image of ".toList ++ scene
    ++ ". High resolution, detailed, professional photography.".toList

/-- `generate_simple_prompts` (lines 509-558).  Raises only the unsupported
object-type `ValueError` (a configuration error); its records carry the keys
`scene`, `prompt` and `object`. -/
def generate_simple_prompts (objectType : PyStr) (count : Nat) (useDynamicScenes : Bool)
    (svcDyn : Except PyErr PyStr) : Except PyErr (List PromptRecord) :=
  if !useDynamicScenes && (dictLookup OBJECT_SCENE_MAP objectType).isNone then
    .error "Unsupported object type"
  else
    let scenes :=
      if useDynamicScenes then
        match generate_dynamic_scenes svcDyn objectType count with
        | .ok l => l
        | .error _ => get_appropriate_scenes objectType false svcDyn
      else get_appropriate_scenes objectType false svcDyn
    let scenes :=
      if !useDynamicScenes && scenes.length < count then
        scenes ++ (List.range (count - scenes.length)).map (fun i => scenes.getD (i % scenes.length) [])
      else scenes
    let selected := scenes.take count
    .ok (selected.map (fun scene =>
      [("scene", PyVal.s scene),
       ("prompt", PyVal.s (photoreal_prompt scene)),
       ("object", PyVal.s objectType)]))

/-- `generate_fully_dynamic_prompts` (lines 560-621) for a constructed
generator; `rnd i` is the `random.randint(1, 3)` draw of iteration `i`. -/
def generate_fully_dynamic_prompts (objectType : PyStr) (count : Nat)
    (svcDyn : Except PyErr PyStr) (rnd : Nat → Nat) : Except PyErr (List PromptRecord) :=
  pyTry
    (do
      let scenes ← generate_dynamic_scenes svcDyn objectType count
      exceptMapM (fun p => do
          let objCount ← pyRandint 1 3 (rnd p.1)
          pure [("scene", PyVal.s p.2),
                ("prompt", PyVal.s (enhanced_fallback_prompt_template objCount objectType p.2)),
                ("object", PyVal.s objectType),
                ("object_count", PyVal.i objCount)])
        scenes.enum)
    (exceptMapM (fun i => do
        let objCount ← pyRandint 1 3 (rnd i)
        let scene := create_fallback_scene objectType i
        pure [("scene", PyVal.s scene),
              ("prompt", PyVal.s (fallback_prompt_template objCount objectType scene)),
              ("object", PyVal.s objectType),
              ("object_count", PyVal.i objCount)])
      (List.range count))

/-- The final prompt text of `generate_llm_prompts` (lines 711-719 and
797-806), from the advanced flag and the scene description returned by the
external call. -/
def llm_prompt_text (advanced : Bool) (sceneDesc : PyStr) : PyStr :=
  if advanced then
    sceneDesc
      ++ ". Amateur smartphone photo, unprocessed RAW quality, unstable handheld shot, random composition with poor framing, visible digital noise, flat colors, mild motion blur, and uneven lighting with bad white balance.".toList
  else
    "Casual amateur snapshot of ".toList ++ sceneDesc
      ++ ". Unprocessed, smartphone quality with technical imperfections.".toList

/-- The original (non-dynamic) tail of `generate_llm_prompts` (lines 751-822).
When `exact_objects` is not `None`, the branch only sets the description
variables and never enters the generation loop, so the accumulated list (empty
on this path) is returned unchanged. -/
def generate_llm_prompts_original (objectType : PyStr) (count : Nat)
    (minObjects maxObjects : Nat) (exactObjects : Option Nat) (advanced : Bool)
    (svcDyn : Except PyErr PyStr) (svcPer : Nat → Except PyErr PyStr) (rnd : Nat → Nat) :
    Except PyErr (List PromptRecord) :=
  match exactObjects with
  | some _ => .ok []
  | none =>
    exceptMapM (fun i => do
        let objCount ← pyRandint minObjects maxObjects (rnd i)
        pyTry
          (do
            let t ← svcPer i
            let scene := pyStrip t
            pure [("scene", PyVal.s scene),
                  ("prompt", PyVal.s (llm_prompt_text advanced scene)),
                  ("object", PyVal.s objectType),
                  ("object_count", PyVal.i objCount)])
          (do
            let sp ← generate_simple_prompts objectType 1 false svcDyn
            match sp with
            | rec0 :: _ => pure (pySetItem rec0 "object_count" (PyVal.i objCount))
            | [] => .error "list index out of range"))
      (List.range count)

/-- Lines 651-656 of `generate_llm_prompts`: an unsupported object type with
dynamic scenes disabled flips `use_dynamic_scenes` on (the client is present
for a constructed generator, so the `ValueError` branch is not taken). -/
def llm_use_dynamic (objectType : PyStr) (useDynamicScenes : Bool) : Bool :=
  if !useDynamicScenes && (dictLookup OBJECT_SCENE_MAP objectType).isNone then true
  else useDynamicScenes

/-- `generate_llm_prompts` (lines 623-822) for a constructed generator.
The dynamic block falls through to the original method on failure
(line 747). -/
def generate_llm_prompts (objectType : PyStr) (count : Nat)
    (minObjects maxObjects : Nat) (exactObjects : Option Nat) (advanced : Bool)
    (useDynamicScenes : Bool) (svcDyn : Except PyErr PyStr)
    (svcPer : Nat → Except PyErr PyStr) (rnd : Nat → Nat) :
    Except PyErr (List PromptRecord) :=
  if llm_use_dynamic objectType useDynamicScenes then
    pyTry
      (do
        let scenes ← generate_dynamic_scenes svcDyn objectType count
        exceptMapM (fun i => do
            let scene := scenes.getD (i % scenes.length) []
            let objCount ← match exactObjects with
              | some k => pure k
              | none => pyRandint minObjects maxObjects (rnd i)
            pyTry
              (do
                let t ← svcPer i
                let sceneDesc := pyStrip t
                pure [("scene", PyVal.s scene),
                      ("scene_description", PyVal.s sceneDesc),
                      ("prompt", PyVal.s (llm_prompt_text advanced sceneDesc)),
                      ("object", PyVal.s objectType),
                      ("object_count", PyVal.i objCount)])
              (pure [("scene", PyVal.s scene),
                     ("prompt", PyVal.s (fallback_prompt_template objCount objectType scene)),
                     ("object", PyVal.s objectType),
                     ("object_count", PyVal.i objCount)]))
          (List.range count))
      (generate_llm_prompts_original objectType count minObjects maxObjects exactObjects
        advanced svcDyn svcPer rnd)
  else
    generate_llm_prompts_original objectType count minObjects maxObjects exactObjects
      advanced svcDyn svcPer rnd

/-! ## Basic lemmas about the embedded operations -/

lemma padLoop_length (o : PyStr) :
    ∀ (k : Nat) (scenes : List PyStr), (padLoop o k scenes).length = scenes.length + k := by
  intro k
  induction k with
  | zero => intro scenes; rfl
  | succ k ih =>
    intro scenes
    rw [padLoop, ih]
    simp [List.length_append]
    omega

lemma padScenes_length (o : PyStr) (n : Nat) (scenes : List PyStr) :
    (padScenes o n scenes).length = n := by
  unfold padScenes
  rw [List.length_take, padLoop_length]
  omega

lemma padDefaultLoop_length (ds : List PyStr) :
    ∀ (k : Nat) (acc : List PyStr), (padDefaultLoop ds k acc).length = acc.length + k := by
  intro k
  induction k with
  | zero => intro acc; rfl
  | succ k ih =>
    intro acc
    rw [padDefaultLoop, ih]
    simp [List.length_append]
    omega

lemma default_scenes_for_length (o : PyStr) : (default_scenes_for o).length = 18 := by
  simp [default_scenes_for]

lemma create_default_dynamic_scenes_length (o : PyStr) (n : Nat) :
    (create_default_dynamic_scenes o n).length = n := by
  unfold create_default_dynamic_scenes
  rw [List.length_take, padDefaultLoop_length, List.length_take, default_scenes_for_length]
  omega

lemma generate_dynamic_scenes_ok (svc : Except PyErr PyStr) (o : PyStr) (n : Nat) :
    ∃ l, generate_dynamic_scenes svc o n = .ok l ∧ l.length = n := by
  cases svc with
  | ok t =>
    exact ⟨padScenes o n (parseDynamicSceneLines t), rfl, padScenes_length o n _⟩
  | error e =>
    exact ⟨create_default_dynamic_scenes o n, rfl, create_default_dynamic_scenes_length o n⟩

lemma pyChoice_ok_of_ne_nil {α : Type} {l : List α} (h : l ≠ []) (r : Nat) :
    ∃ v, pyChoice l r = .ok v := by
  cases l with
  | nil => exact absurd rfl h
  | cons a t => exact ⟨_, rfl⟩

lemma pyChoice_mem {α : Type} {l : List α} {r : Nat} {v : α} (h : pyChoice l r = .ok v) :
    v ∈ l := by
  cases l with
  | nil => exact absurd h (by simp [pyChoice])
  | cons a t =>
    have : v = (a :: t).get ⟨r % (t.length + 1), Nat.mod_lt _ t.length.succ_pos⟩ := by
      simpa [pyChoice] using h.symm
    rw [this]
    exact List.get_mem _ _ _

lemma get_appropriate_scenes_ne_nil (o : PyStr) (u : Bool) (svc : Except PyErr PyStr) :
    get_appropriate_scenes o u svc ≠ [] := by
  have hmatched :
      (if (find_matching_scenes o).isEmpty then GENERAL_SCENES else find_matching_scenes o) ≠ [] := by
    by_cases hm : (find_matching_scenes o).isEmpty
    · simp [hm, GENERAL_SCENES]
    · simp [hm]
      exact fun h => hm (by simp [h])
  unfold get_appropriate_scenes
  cases u with
  | false => simpa using hmatched
  | true =>
    obtain ⟨l, hl, hlen⟩ := generate_dynamic_scenes_ok svc o 10
    simp only [hl, if_true]
    intro h
    rw [h] at hlen
    simp at hlen

lemma infer_scene_ok (hc : Bool) (svcD svcI : Except PyErr PyStr) (o : PyStr)
    (k r0 r1 r2 r3 : Nat) :
    ∃ v, infer_scene hc svcD svcI o k r0 r1 r2 r3 = .ok v := by
  unfold infer_scene
  cases hc with
  | false =>
    simpa using pyChoice_ok_of_ne_nil (get_appropriate_scenes_ne_nil o false svcD) r0
  | true =>
    obtain ⟨l, hl, hlen⟩ := generate_dynamic_scenes_ok svcD o 10
    have hne : l ≠ [] := by
      intro h; rw [h] at hlen; simp at hlen
    obtain ⟨v, hv⟩ := pyChoice_ok_of_ne_nil hne r1
    refine ⟨v, ?_⟩
    simp [hl, pyTry, bind, Except.bind, hv]

lemma pyTry_ok_of_handler {α : Type} {body handler : Except PyErr α}
    (h : ∃ v, handler = .ok v) : ∃ v, pyTry body handler = .ok v := by
  cases body with
  | ok v => exact ⟨v, rfl⟩
  | error e => simpa [pyTry] using h

lemma mem_pySetList {x : PyStr} : ∀ {l : List PyStr}, x ∈ pySetList l ↔ x ∈ l := by
  intro l
  induction l with
  | nil => simp [pySetList]
  | cons a rest ih =>
    by_cases ha : a ∈ rest
    · simp only [pySetList, if_pos ha, ih, List.mem_cons]
      constructor
      · exact Or.inr
      · rintro (rfl | h)
        · exact ha
        · exact h
    · simp only [pySetList, if_neg ha, List.mem_cons, ih]

lemma pySetList_ne_nil {l : List PyStr} (h : l ≠ []) : pySetList l ≠ [] := by
  obtain ⟨x, hx⟩ := List.exists_mem_of_ne_nil l h
  intro hcon
  have := mem_pySetList.mpr hx
  rw [hcon] at this
  simp at this

lemma create_default_dynamic_scenes_ne_nil (o : PyStr) {n : Nat} (h : 0 < n) :
    create_default_dynamic_scenes o n ≠ [] := by
  intro hcon
  have := create_default_dynamic_scenes_length o n
  rw [hcon] at this
  simp at this
  omega

lemma ensure_diverse_ne_nil {l : List PyStr} (o : PyStr) (h : l ≠ []) :
    ensure_diverse l o ≠ [] := by
  unfold ensure_diverse
  by_cases hc : (pySetList l).length < 3
  · rw [if_pos hc]
    apply pySetList_ne_nil
    intro hcon
    have := List.append_eq_nil.mp hcon
    exact h this.1
  · rw [if_neg hc]
    exact h

lemma default_scenes_take10_ne_nil (o : PyStr) : (default_scenes_for o).take 10 ≠ [] := by
  intro h
  have := congrArg List.length h
  rw [List.length_take, default_scenes_for_length] at this
  simp at this

lemma except_ok_of_isOk {α : Type} {e : Except PyErr α} (h : e.isOk = true) :
    ∃ v, e = .ok v := by
  cases e with
  | ok v => exact ⟨v, rfl⟩
  | error e => simp [Except.isOk, Except.toBool] at h

lemma pyTry_isOk {α : Type} {body handler : Except PyErr α}
    (h : handler.isOk = true) : (pyTry body handler).isOk = true := by
  cases body with
  | ok v => rfl
  | error e => simpa [pyTry] using h

lemma pyChoice_isOk {α : Type} {l : List α} (h : l ≠ []) (r : Nat) :
    (pyChoice l r).isOk = true := by
  cases l with
  | nil => exact absurd rfl h
  | cons a t => rfl

lemma generate_realistic_prompt_ok (hc : Bool) (svc : Except PyErr PyStr)
    (o sc : PyStr) (num : Option Nat) (minO maxO r : Nat) (h : minO ≤ maxO) :
    ∃ rec, generate_realistic_prompt hc svc o sc num minO maxO r = .ok rec := by
  apply except_ok_of_isOk
  have hk : pyRandint minO maxO r = .ok (minO + r % (maxO - minO + 1)) := by
    simp [pyRandint, Nat.not_lt.mpr h]
  unfold generate_realistic_prompt
  cases hc with
  | false =>
    cases num with
    | none => simp [bind, Except.bind, hk, pure, Except.pure, Except.isOk, Except.toBool]
    | some m =>
      by_cases hm : m = 0
      · simp [hm, bind, Except.bind, hk, pure, Except.pure, Except.isOk, Except.toBool]
      · simp [hm, bind, Except.bind, pure, Except.pure, Except.isOk, Except.toBool]
  | true =>
    cases num with
    | none =>
      cases svc with
      | ok t => simp [bind, Except.bind, hk, pure, Except.pure, pyTry, Except.isOk, Except.toBool]
      | error e => simp [bind, Except.bind, hk, pure, Except.pure, pyTry, Except.isOk, Except.toBool]
    | some m =>
      cases svc with
      | ok t => simp [bind, Except.bind, pure, Except.pure, pyTry, Except.isOk, Except.toBool]
      | error e => simp [bind, Except.bind, pure, Except.pure, pyTry, Except.isOk, Except.toBool]

lemma simple_prompt_object_ok (objectName : Option PyStr) (r0 : Nat) :
    ∃ o, simple_prompt_object objectName r0 = .ok o := by
  cases objectName with
  | none =>
    show ∃ o, pyChoice (OBJECT_SCENE_MAP.map Prod.fst) r0 = .ok o
    refine pyChoice_ok_of_ne_nil ?_ r0
    decide
  | some o => exact ⟨o, rfl⟩

lemma simple_prompt_count_ok (numObjects : Option Nat) (r1 : Nat) :
    ∃ n, simple_prompt_count numObjects r1 = .ok n := by
  cases numObjects with
  | none => exact ⟨1 + r1 % 3, by simp [simple_prompt_count, pyRandint]⟩
  | some k => exact ⟨k, rfl⟩

lemma simple_prompt_scene_ok (object : PyStr) (sceneType : Option PyStr)
    (useLlm : Bool) (svcDyn : Except PyErr PyStr) (r2 r3 : Nat) :
    ∃ s, simple_prompt_scene object sceneType useLlm svcDyn r2 r3 = .ok s := by
  apply except_ok_of_isOk
  unfold simple_prompt_scene
  cases sceneType with
  | some s => rfl
  | none =>
    cases useLlm with
    | false => simpa using pyChoice_isOk (default_scenes_take10_ne_nil object) r3
    | true =>
      simp only [if_true]
      exact pyTry_isOk (pyChoice_isOk (default_scenes_take10_ne_nil object) r3)

lemma generate_simple_prompt_ok (objectName sceneType : Option PyStr)
    (numObjects : Option Nat) (useLlm useDyn : Bool) (svcDyn : Except PyErr PyStr)
    (r0 r1 r2 r3 : Nat) :
    ∃ v, generate_simple_prompt objectName sceneType numObjects useLlm useDyn svcDyn r0 r1 r2 r3 = .ok v := by
  obtain ⟨o, ho⟩ := simple_prompt_object_ok objectName r0
  obtain ⟨n, hn⟩ := simple_prompt_count_ok numObjects r1
  obtain ⟨s, hs⟩ := simple_prompt_scene_ok o sceneType useLlm svcDyn r2 r3
  refine ⟨(enhanced_fallback_prompt_template n o s, s, n), ?_⟩
  unfold generate_simple_prompt
  rw [ho]
  simp only [bind, Except.bind]
  rw [hn]
  simp only [bind, Except.bind]
  rw [hs]
  simp only [bind, Except.bind, pure, Except.pure]

/-! ## Claim theorems -/

/-- C1 (amended): for object name "empty can" with an API client configured
and every external call failing, `infer_scene` never raises and returns one of
the ten default dynamic scenes (`DEFAULT_SCENES[:10]` interpolated with the
object name) produced by `_create_default_dynamic_scenes` — not a scene drawn
from the `ObjectMatcher` pool, which is consulted only when no API client is
configured. -/
theorem claim_C1_amended (e1 e2 : PyErr) (k r0 r1 r2 r3 : Nat) :
    ∃ s, infer_scene true (.error e1) (.error e2) "empty can".toList k r0 r1 r2 r3 = .ok s ∧
      s ∈ create_default_dynamic_scenes "empty can".toList 10 := by
  have hg : generate_dynamic_scenes (Except.error e1) "empty can".toList 10
      = .ok (create_default_dynamic_scenes "empty can".toList 10) := rfl
  have hne : create_default_dynamic_scenes "empty can".toList 10 ≠ [] :=
    create_default_dynamic_scenes_ne_nil _ (by norm_num)
  obtain ⟨v, hv⟩ := pyChoice_ok_of_ne_nil hne r1
  refine ⟨v, ?_, pyChoice_mem hv⟩
  unfold infer_scene
  rw [if_neg (by decide)]
  rw [hg]
  simp only [bind, Except.bind]
  rw [hv]
  rfl

/-- C1 (counterexample): with the service unavailable (client present, every
call failing), `infer_scene` for "empty can" returns the first default dynamic
scene, which is not one of the ten predefined "empty can" pool scenes — the
cascade never reaches the matched-pool tier on this path. -/
theorem claim_C1_counterexample :
    infer_scene true (.error "service unavailable") (.error "service unavailable")
        "empty can".toList 1 0 0 0 0 = .ok "kitchen counter with empty can".toList ∧
    "kitchen counter with empty can".toList ∉
      (dictLookup OBJECT_SCENE_MAP "empty can".toList).getD [] := by
  constructor
  · rfl
  · decide

/-- C2: every cascade operation — `infer_scene`, `generate_dynamic_scenes`,
`generate_realistic_prompt`, `generate_simple_prompt` — absorbs external
failures internally and returns a result for every input object name, scene
and count; for `generate_realistic_prompt` a well-formed count configuration
(`min_objects ≤ max_objects`) is assumed, an inverted range being a class-(c)
configuration error. -/
theorem claim_C2 :
    (∀ (hc : Bool) (svcD svcI : Except PyErr PyStr) (o : PyStr) (k r0 r1 r2 r3 : Nat),
      ∃ v, infer_scene hc svcD svcI o k r0 r1 r2 r3 = .ok v) ∧
    (∀ (svc : Except PyErr PyStr) (o : PyStr) (n : Nat),
      ∃ l, generate_dynamic_scenes svc o n = .ok l) ∧
    (∀ (hc : Bool) (svc : Except PyErr PyStr) (o sc : PyStr) (num : Option Nat)
        (minO maxO r : Nat), minO ≤ maxO →
      ∃ rec, generate_realistic_prompt hc svc o sc num minO maxO r = .ok rec) ∧
    (∀ (objectName sceneType : Option PyStr) (numObjects : Option Nat)
        (useLlm useDyn : Bool) (svcDyn : Except PyErr PyStr) (r0 r1 r2 r3 : Nat),
      ∃ v, generate_simple_prompt objectName sceneType numObjects useLlm useDyn svcDyn r0 r1 r2 r3 = .ok v) := by
  refine ⟨infer_scene_ok, ?_, generate_realistic_prompt_ok, generate_simple_prompt_ok⟩
  intro svc o n
  obtain ⟨l, hl, _⟩ := generate_dynamic_scenes_ok svc o n
  exact ⟨l, hl⟩

/-- Witness for C2 at a concrete input (realistic-prompt conjunct, whose
range hypothesis is discharged at `1 ≤ 3`). -/
theorem claim_C2_witness :
    ∃ rec, generate_realistic_prompt true (.error "down") "empty can".toList
      "kitchen counter".toList none 1 3 0 = .ok rec :=
  claim_C2.2.2.1 true (.error "down") "empty can".toList "kitchen counter".toList
    none 1 3 0 (by decide)

/-- C3: `generate_dynamic_scenes(object, N)` returns a list of exactly `N`
entries for every object name and every `N ≥ 1`, whether the external call
succeeds, yields too few usable lines (padding with fallback scenes), or fails
entirely (default dynamic scenes). -/
theorem claim_C3 (svc : Except PyErr PyStr) (o : PyStr) (n : Nat) (_h : 1 ≤ n) :
    ∃ l, generate_dynamic_scenes svc o n = .ok l ∧ l.length = n :=
  generate_dynamic_scenes_ok svc o n

/-- Witness for C3 at a concrete input. -/
theorem claim_C3_witness :
    ∃ l, generate_dynamic_scenes (.error "down") "plastic bottle".toList 7 = .ok l ∧
      l.length = 7 :=
  claim_C3 (.error "down") "plastic bottle".toList 7 (by decide)

/-- C9: the synthetic-fallback template generator `_create_fallback_scene` is
a pure function of the object name and position index — two calls with the
same arguments yield the identical string, namely the template combining the
lighting, environment and surface terms selected by the modular indices
`7i mod 12`, `3i mod 20` and `5i mod 17`. -/
theorem claim_C9 (o : PyStr) (i : Nat) :
    create_fallback_scene o i = create_fallback_scene o i ∧
    create_fallback_scene o i =
      LIGHTING_CONDITIONS.getD ((i * 7) % LIGHTING_CONDITIONS.length) [] ++ " ".toList ++
      ENVIRONMENT_TYPES.getD ((i * 3) % ENVIRONMENT_TYPES.length) [] ++ " with ".toList ++
      SURFACE_TYPES.getD ((i * 5) % SURFACE_TYPES.length) [] ++ " and ".toList ++ o :=
  ⟨rfl, rfl⟩

/-! ## Diversity guard (C4) -/

lemma three_le_length_of_three_mem {l : List PyStr} {a b c : PyStr}
    (ha : a ∈ l) (hb : b ∈ l) (hc : c ∈ l)
    (hab : a ≠ b) (hac : a ≠ c) (hbc : b ≠ c) : 3 ≤ l.length := by
  have hsub : ({a, b, c} : Finset PyStr) ⊆ l.toFinset := by
    intro x hx
    simp only [Finset.mem_insert, Finset.mem_singleton] at hx
    rcases hx with rfl | rfl | rfl <;> simpa [List.mem_toFinset]
  have hcard : ({a, b, c} : Finset PyStr).card = 3 := by
    rw [Finset.card_insert_of_not_mem (by simp [hab, hac]),
      Finset.card_insert_of_not_mem (by simp [hbc]), Finset.card_singleton]
  calc 3 = ({a, b, c} : Finset PyStr).card := hcard.symm
    _ ≤ l.toFinset.card := Finset.card_le_card hsub
    _ ≤ l.length := l.toFinset_card_le

lemma create_default_dynamic_scenes_five (o : PyStr) :
    create_default_dynamic_scenes o 5 =
      ["kitchen counter with ".toList ++ o,
       "bathroom corner with ".toList ++ o,
       "office desk with ".toList ++ o,
       "bedroom with ".toList ++ o ++ " on nightstand".toList,
       "storage room with ".toList ++ o] := rfl

/-- C4 (amended): when the input batch has fewer than three distinct entries,
the diversity-guard step (supplement with five default dynamic scenes, then
deduplicate via set conversion) produces an output with at least three
distinct entries and length at least three.  (The set conversion can shrink
the list below the input length, so `max(input length, 3)` does not hold.) -/
theorem claim_C4_amended (scenes : List PyStr) (o : PyStr)
    (h : (pySetList scenes).length < 3) :
    3 ≤ (pySetList (ensure_diverse scenes o)).length ∧
    3 ≤ (ensure_diverse scenes o).length := by
  have hd12 : "kitchen counter with ".toList ++ o ≠ "bathroom corner with ".toList ++ o := by
    intro hcon
    simpa using congrArg List.head? hcon
  have hd13 : "kitchen counter with ".toList ++ o ≠ "office desk with ".toList ++ o := by
    intro hcon
    simpa using congrArg List.head? hcon
  have hd23 : "bathroom corner with ".toList ++ o ≠ "office desk with ".toList ++ o := by
    intro hcon
    simpa using congrArg List.head? hcon
  have hmem : ∀ x ∈ create_default_dynamic_scenes o 5,
      x ∈ ensure_diverse scenes o := by
    intro x hx
    unfold ensure_diverse
    rw [if_pos h]
    exact mem_pySetList.mpr (List.mem_append_right _ hx)
  have h1 : "kitchen counter with ".toList ++ o ∈ ensure_diverse scenes o := by
    apply hmem; rw [create_default_dynamic_scenes_five]; simp
  have h2 : "bathroom corner with ".toList ++ o ∈ ensure_diverse scenes o := by
    apply hmem; rw [create_default_dynamic_scenes_five]; simp
  have h3 : "office desk with ".toList ++ o ∈ ensure_diverse scenes o := by
    apply hmem; rw [create_default_dynamic_scenes_five]; simp
  refine ⟨?_, three_le_length_of_three_mem h1 h2 h3 hd12 hd13 hd23⟩
  exact three_le_length_of_three_mem (mem_pySetList.mpr h1) (mem_pySetList.mpr h2)
    (mem_pySetList.mpr h3) hd12 hd13 hd23

/-- Witness for C4 at a concrete input with two equal entries. -/
theorem claim_C4_witness :
    3 ≤ (pySetList (ensure_diverse ["a".toList, "a".toList] "can".toList)).length ∧
    3 ≤ (ensure_diverse ["a".toList, "a".toList] "can".toList).length :=
  claim_C4_amended ["a".toList, "a".toList] "can".toList (by decide)

/-- C4 (counterexample): for eight copies of one scene, the guard's output has
six entries — fewer than the input length eight — so the claimed lower bound
`max(input length, 3)` on the output length fails. -/
theorem claim_C4_counterexample :
    (ensure_diverse (List.replicate 8 "a".toList) "can".toList).length <
      max (List.replicate 8 "a".toList).length 3 := by decide

/-! ## ObjectMatcher characterisation (C6) -/

lemma find?_key_eq {pool : List (PyStr × List PyStr)} {k : PyStr} {s : List PyStr}
    (hnd : (pool.map Prod.fst).Nodup) (hmem : (k, s) ∈ pool) :
    pool.find? (fun e => e.1 == k) = some (k, s) := by
  induction pool with
  | nil => simp at hmem
  | cons e pool' ih =>
    rw [List.map_cons, List.nodup_cons] at hnd
    by_cases he : e.1 = k
    · have hek : (e.1 == k) = true := by simp [he]
      rw [List.find?_cons, hek]
      rcases List.mem_cons.mp hmem with rfl | hmem'
      · rfl
      · exact absurd (he ▸ List.mem_map_of_mem Prod.fst hmem') hnd.1
    · have hek : (e.1 == k) = false := by simp [he]
      rw [List.find?_cons, hek]
      rcases List.mem_cons.mp hmem with rfl | hmem'
      · exact absurd rfl he
      · exact ih hnd.2 hmem'

/-- C6: for every pool and object name, `_find_matching_scenes` implements
the three-tier policy in order — (1) case-folded exact key lookup, (2) first
key in pool order satisfying the substring predicate, returning that single
key's full scene list, (3) first key in pool order satisfying the word-overlap
predicate — and returns the empty list when no tier matches; moreover, on a
pool whose keys are case-folded and duplicate-free, the matcher applied to a
key's exact string returns that key's full scene list unchanged. -/
theorem claim_C6 :
    (∀ (pool : List (PyStr × List PyStr)) (name : PyStr) (scenes : List PyStr),
      dictLookup pool (pyLower name) = some scenes →
      find_matching_scenes_in pool name = scenes) ∧
    (∀ (pool : List (PyStr × List PyStr)) (name : PyStr) (e : PyStr × List PyStr),
      dictLookup pool (pyLower name) = none →
      pool.find? (substr_match (pyLower name)) = some e →
      find_matching_scenes_in pool name = e.2) ∧
    (∀ (pool : List (PyStr × List PyStr)) (name : PyStr) (e : PyStr × List PyStr),
      dictLookup pool (pyLower name) = none →
      pool.find? (substr_match (pyLower name)) = none →
      pool.find? (word_overlap_match (pyLower name)) = some e →
      find_matching_scenes_in pool name = e.2) ∧
    (∀ (pool : List (PyStr × List PyStr)) (name : PyStr),
      dictLookup pool (pyLower name) = none →
      pool.find? (substr_match (pyLower name)) = none →
      pool.find? (word_overlap_match (pyLower name)) = none →
      find_matching_scenes_in pool name = []) ∧
    (∀ (pool : List (PyStr × List PyStr)) (k : PyStr) (s : List PyStr),
      (∀ e ∈ pool, pyLower e.1 = e.1) → (pool.map Prod.fst).Nodup →
      (k, s) ∈ pool → find_matching_scenes_in pool k = s) := by
  have tier1 : ∀ (pool : List (PyStr × List PyStr)) (name : PyStr) (scenes : List PyStr),
      dictLookup pool (pyLower name) = some scenes →
      find_matching_scenes_in pool name = scenes := by
    intro pool name scenes h
    unfold find_matching_scenes_in
    rw [h]
  refine ⟨tier1, ?_, ?_, ?_, ?_⟩
  · intro pool name e h1 h2
    unfold find_matching_scenes_in
    rw [h1, h2]
  · intro pool name e h1 h2 h3
    unfold find_matching_scenes_in
    rw [h1, h2, h3]
  · intro pool name h1 h2 h3
    unfold find_matching_scenes_in
    rw [h1, h2, h3]
  · intro pool k s hlow hnd hmem
    have hk : pyLower k = k := hlow (k, s) hmem
    apply tier1
    rw [hk]
    unfold dictLookup
    rw [find?_key_eq hnd hmem]
    rfl

/-- Witness for C6: on the (spec-modelled) `OBJECT_SCENE_MAP`, whose keys are
case-folded and duplicate-free, the matcher applied to the exact key
"empty can" returns that key's full scene list. -/
theorem claim_C6_witness :
    find_matching_scenes_in OBJECT_SCENE_MAP "empty can".toList =
      (dictLookup OBJECT_SCENE_MAP "empty can".toList).getD [] :=
  claim_C6.2.2.2.2 OBJECT_SCENE_MAP "empty can".toList
    ((dictLookup OBJECT_SCENE_MAP "empty can".toList).getD [])
    (by decide) (by decide) (by decide)

/-! ## Record field contracts (C8) -/

/-- The downstream record contract: all four fields present. -/
def has_record_contract (rec : PromptRecord) : Prop :=
  hasKey rec "object" = true ∧ hasKey rec "scene" = true ∧
  hasKey rec "prompt" = true ∧ hasKey rec "object_count" = true

lemma exceptMapM_ok_forall {α : Type} {f : α → Except PyErr PromptRecord}
    {P : PromptRecord → Prop}
    (hf : ∀ x r, f x = .ok r → P r) :
    ∀ {xs : List α} {res : List PromptRecord}, exceptMapM f xs = .ok res →
      ∀ r ∈ res, P r := by
  intro xs
  induction xs with
  | nil =>
    intro res h r hr
    simp only [exceptMapM] at h
    cases h
    simp at hr
  | cons x xs ih =>
    intro res h r hr
    simp only [exceptMapM] at h
    cases hfx : f x with
    | error e => rw [hfx] at h; simp [bind, Except.bind] at h
    | ok y =>
      rw [hfx] at h
      cases hm : exceptMapM f xs with
      | error e => rw [hm] at h; simp [bind, Except.bind] at h
      | ok ys =>
        rw [hm] at h
        simp only [bind, Except.bind, pure, Except.pure] at h
        cases h
        rcases List.mem_cons.mp hr with rfl | hr'
        · exact hf x r hfx
        · exact ih hm r hr'

lemma generate_simple_prompts_shape {ot : PyStr} {cnt : Nat} {ud : Bool}
    {svc : Except PyErr PyStr} {recs : List PromptRecord}
    (h : generate_simple_prompts ot cnt ud svc = .ok recs) :
    ∀ rec ∈ recs, ∃ scene, rec =
      [("scene", PyVal.s scene), ("prompt", PyVal.s (photoreal_prompt scene)),
       ("object", PyVal.s ot)] := by
  unfold generate_simple_prompts at h
  by_cases hc : (!ud && (dictLookup OBJECT_SCENE_MAP ot).isNone) = true
  · rw [if_pos hc] at h
    cases h
  · rw [if_neg hc] at h
    cases h
    intro rec hrec
    obtain ⟨scene, _, hs⟩ := List.mem_map.mp hrec
    exact ⟨scene, hs.symm⟩

lemma generate_realistic_prompt_contract {hc : Bool} {svc : Except PyErr PyStr}
    {o sc : PyStr} {num : Option Nat} {minO maxO r : Nat} {rec : PromptRecord}
    (h : generate_realistic_prompt hc svc o sc num minO maxO r = .ok rec) :
    has_record_contract rec := by
  unfold generate_realistic_prompt at h
  cases hc with
  | false =>
    simp only [Bool.not_false, if_true] at h
    have hrec : ∀ (n : Nat), rec =
        [("prompt", PyVal.s (fallback_prompt_template n o sc)),
         ("scene", PyVal.s sc), ("object_count", PyVal.i n), ("object", PyVal.s o)] →
        has_record_contract rec := by
      intro n hn
      subst hn
      simp [has_record_contract, hasKey]
    cases num with
    | none =>
      cases hri : pyRandint minO maxO r with
      | error e => rw [hri] at h; simp [bind, Except.bind] at h
      | ok n =>
        rw [hri] at h
        simp only [bind, Except.bind, pure, Except.pure] at h
        cases h
        exact hrec n rfl
    | some m =>
      simp only [] at h
      by_cases hm : m = 0
      · rw [if_pos hm] at h
        cases hri : pyRandint minO maxO r with
        | error e => rw [hri] at h; simp [bind, Except.bind] at h
        | ok n =>
          rw [hri] at h
          simp only [bind, Except.bind, pure, Except.pure] at h
          cases h
          exact hrec n rfl
      · rw [if_neg hm] at h
        simp only [bind, Except.bind, pure, Except.pure] at h
        cases h
        exact hrec m rfl
  | true =>
    simp only [Bool.not_true, if_false] at h
    have hbody : ∀ (n : Nat),
        pyTry
          (do
            let t ← svc
            pure [("prompt", PyVal.s t), ("scene", PyVal.s sc),
                  ("object_count", PyVal.i n), ("object", PyVal.s o)])
          (pure [("prompt", PyVal.s (fallback_prompt_template n o sc)),
                 ("scene", PyVal.s sc), ("object_count", PyVal.i n),
                 ("object", PyVal.s o)]) = .ok rec →
        has_record_contract rec := by
      intro n hn
      cases svc with
      | ok t =>
        simp only [bind, Except.bind, pure, Except.pure, pyTry] at hn
        cases hn
        simp [has_record_contract, hasKey]
      | error e =>
        simp only [bind, Except.bind, pure, Except.pure, pyTry] at hn
        cases hn
        simp [has_record_contract, hasKey]
    cases num with
    | none =>
      cases hri : pyRandint minO maxO r with
      | error e => rw [hri] at h; simp [bind, Except.bind] at h
      | ok n =>
        rw [hri] at h
        simp only [bind, Except.bind] at h
        exact hbody n h
    | some m =>
      simp only [] at h
      simp only [bind, Except.bind, pure, Except.pure] at h
      exact hbody m h

lemma pyTry_ok_elim {α : Type} {A B : Except PyErr α} {v : α}
    (h : pyTry A B = .ok v) : A = .ok v ∨ B = .ok v := by
  cases A with
  | ok w => left; simpa [pyTry] using h
  | error e => right; simpa [pyTry] using h

lemma generate_fully_dynamic_prompts_contract {objectType : PyStr} {count : Nat}
    {svcDyn : Except PyErr PyStr} {rnd : Nat → Nat} {recs : List PromptRecord}
    (h : generate_fully_dynamic_prompts objectType count svcDyn rnd = .ok recs) :
    ∀ rec ∈ recs, has_record_contract rec := by
  unfold generate_fully_dynamic_prompts at h
  obtain ⟨l, hl, _⟩ := generate_dynamic_scenes_ok svcDyn objectType count
  rw [hl] at h
  simp only [bind, Except.bind] at h
  have hsucc : ∀ (p : Nat × PyStr) (r : PromptRecord),
      (do
        let objCount ← pyRandint 1 3 (rnd p.1)
        pure [("scene", PyVal.s p.2),
              ("prompt", PyVal.s (enhanced_fallback_prompt_template objCount objectType p.2)),
              ("object", PyVal.s objectType),
              ("object_count", PyVal.i objCount)] : Except PyErr PromptRecord) = .ok r →
      has_record_contract r := by
    intro p r hr
    cases hri : pyRandint 1 3 (rnd p.1) with
    | error e => rw [hri] at hr; simp [bind, Except.bind] at hr
    | ok n =>
      rw [hri] at hr
      simp only [bind, Except.bind, pure, Except.pure] at hr
      cases hr
      simp [has_record_contract, hasKey]
  have hfall : ∀ (i : Nat) (r : PromptRecord),
      (do
        let objCount ← pyRandint 1 3 (rnd i)
        pure [("scene", PyVal.s (create_fallback_scene objectType i)),
              ("prompt", PyVal.s (fallback_prompt_template objCount objectType
                (create_fallback_scene objectType i))),
              ("object", PyVal.s objectType),
              ("object_count", PyVal.i objCount)] : Except PyErr PromptRecord) = .ok r →
      has_record_contract r := by
    intro i r hr
    cases hri : pyRandint 1 3 (rnd i) with
    | error e => rw [hri] at hr; simp [bind, Except.bind] at hr
    | ok n =>
      rw [hri] at hr
      simp only [bind, Except.bind, pure, Except.pure] at hr
      cases hr
      simp [has_record_contract, hasKey]
  rcases pyTry_ok_elim h with hA | hB
  · exact exceptMapM_ok_forall (fun p r hr => hsucc p r hr) hA
  · exact exceptMapM_ok_forall (fun i r hr => hfall i r hr) hB

lemma generate_llm_prompts_original_contract {objectType : PyStr}
    {count minObjects maxObjects : Nat} {exactObjects : Option Nat} {advanced : Bool}
    {svcDyn : Except PyErr PyStr} {svcPer : Nat → Except PyErr PyStr} {rnd : Nat → Nat}
    {recs : List PromptRecord}
    (h : generate_llm_prompts_original objectType count minObjects maxObjects exactObjects
      advanced svcDyn svcPer rnd = .ok recs) :
    ∀ rec ∈ recs, has_record_contract rec := by
  unfold generate_llm_prompts_original at h
  cases exactObjects with
  | some k =>
    cases h
    intro rec hrec
    simp at hrec
  | none =>
    refine exceptMapM_ok_forall ?_ h
    intro i r hr
    cases hri : pyRandint minObjects maxObjects (rnd i) with
    | error e => rw [hri] at hr; simp [bind, Except.bind] at hr
    | ok n =>
      rw [hri] at hr
      simp only [bind, Except.bind] at hr
      rcases pyTry_ok_elim hr with hA | hB
      · cases hsp : svcPer i with
        | error e => rw [hsp] at hA; simp [bind, Except.bind] at hA
        | ok t =>
          rw [hsp] at hA
          simp only [bind, Except.bind, pure, Except.pure] at hA
          cases hA
          simp [has_record_contract, hasKey]
      · cases hsp2 : generate_simple_prompts objectType 1 false svcDyn with
        | error e => rw [hsp2] at hB; simp [bind, Except.bind] at hB
        | ok sp =>
          rw [hsp2] at hB
          simp only [bind, Except.bind] at hB
          cases sp with
          | nil => simp at hB
          | cons rec0 rest =>
            simp only [pure, Except.pure] at hB
            obtain ⟨scene, hsc⟩ :=
              generate_simple_prompts_shape hsp2 rec0 (List.mem_cons_self _ _)
            cases hB
            subst hsc
            simp [pySetItem, has_record_contract, hasKey]

lemma generate_llm_prompts_contract {objectType : PyStr}
    {count minObjects maxObjects : Nat} {exactObjects : Option Nat}
    {advanced useDynamicScenes : Bool} {svcDyn : Except PyErr PyStr}
    {svcPer : Nat → Except PyErr PyStr} {rnd : Nat → Nat} {recs : List PromptRecord}
    (h : generate_llm_prompts objectType count minObjects maxObjects exactObjects
      advanced useDynamicScenes svcDyn svcPer rnd = .ok recs) :
    ∀ rec ∈ recs, has_record_contract rec := by
  unfold generate_llm_prompts at h
  by_cases hud : llm_use_dynamic objectType useDynamicScenes = true
  · rw [if_pos hud] at h
    obtain ⟨l, hl, _⟩ := generate_dynamic_scenes_ok svcDyn objectType count
    rw [hl] at h
    simp only [bind, Except.bind] at h
    rcases pyTry_ok_elim h with hA | hB
    · refine exceptMapM_ok_forall ?_ hA
      intro i r hr
      have hinner : ∀ (n : Nat),
          pyTry
            (do
              let t ← svcPer i
              pure [("scene", PyVal.s (l.getD (i % l.length) [])),
                    ("scene_description", PyVal.s (pyStrip t)),
                    ("prompt", PyVal.s (llm_prompt_text advanced (pyStrip t))),
                    ("object", PyVal.s objectType),
                    ("object_count", PyVal.i n)])
            (pure [("scene", PyVal.s (l.getD (i % l.length) [])),
                   ("prompt", PyVal.s (fallback_prompt_template n objectType
                     (l.getD (i % l.length) []))),
                   ("object", PyVal.s objectType),
                   ("object_count", PyVal.i n)]) = .ok r →
          has_record_contract r := by
        intro n hn
        rcases pyTry_ok_elim hn with hin | hfb
        · cases hsp : svcPer i with
          | error e => rw [hsp] at hin; simp [bind, Except.bind] at hin
          | ok t =>
            rw [hsp] at hin
            simp only [bind, Except.bind, pure, Except.pure] at hin
            cases hin
            simp [has_record_contract, hasKey]
        · simp only [pure, Except.pure] at hfb
          cases hfb
          simp [has_record_contract, hasKey]
      cases exactObjects with
      | some k =>
        simp only [] at hr
        simp only [bind, Except.bind, pure, Except.pure] at hr
        exact hinner k hr
      | none =>
        simp only [] at hr
        cases hri : pyRandint minObjects maxObjects (rnd i) with
        | error e => rw [hri] at hr; simp [bind, Except.bind] at hr
        | ok n =>
          rw [hri] at hr
          simp only [bind, Except.bind] at hr
          exact hinner n hr
    · exact generate_llm_prompts_original_contract hB
  · rw [if_neg hud] at h
    exact generate_llm_prompts_original_contract h

/-- C8 (amended): every record returned by `generate_realistic_prompt`,
`generate_fully_dynamic_prompts` and `generate_llm_prompts` carries all four
fields `object`, `scene`, `prompt` and `object_count`; the records of
`generate_simple_prompts`, however, carry only `scene`, `prompt` and `object`
and lack `object_count` (it is added after the fact only by the fallback path
of `generate_llm_prompts`). -/
theorem claim_C8_amended :
    (∀ (hc : Bool) (svc : Except PyErr PyStr) (o sc : PyStr) (num : Option Nat)
        (minO maxO r : Nat) (rec : PromptRecord),
      generate_realistic_prompt hc svc o sc num minO maxO r = .ok rec →
      has_record_contract rec) ∧
    (∀ (ot : PyStr) (cnt : Nat) (svcD : Except PyErr PyStr) (rnd : Nat → Nat)
        (recs : List PromptRecord),
      generate_fully_dynamic_prompts ot cnt svcD rnd = .ok recs →
      ∀ rec ∈ recs, has_record_contract rec) ∧
    (∀ (ot : PyStr) (cnt minO maxO : Nat) (ex : Option Nat) (adv ud : Bool)
        (svcD : Except PyErr PyStr) (svcP : Nat → Except PyErr PyStr) (rnd : Nat → Nat)
        (recs : List PromptRecord),
      generate_llm_prompts ot cnt minO maxO ex adv ud svcD svcP rnd = .ok recs →
      ∀ rec ∈ recs, has_record_contract rec) ∧
    (∀ (ot : PyStr) (cnt : Nat) (ud : Bool) (svcD : Except PyErr PyStr)
        (recs : List PromptRecord),
      generate_simple_prompts ot cnt ud svcD = .ok recs →
      ∀ rec ∈ recs, hasKey rec "scene" = true ∧ hasKey rec "prompt" = true ∧
        hasKey rec "object" = true ∧ hasKey rec "object_count" = false) := by
  refine ⟨?_, ?_, ?_, ?_⟩
  · intro hc svc o sc num minO maxO r rec h
    exact generate_realistic_prompt_contract h
  · intro ot cnt svcD rnd recs h
    exact generate_fully_dynamic_prompts_contract h
  · intro ot cnt minO maxO ex adv ud svcD svcP rnd recs h
    exact generate_llm_prompts_contract h
  · intro ot cnt ud svcD recs h rec hrec
    obtain ⟨scene, hsc⟩ := generate_simple_prompts_shape h rec hrec
    subst hsc
    simp [hasKey]

/-- Witness for C8 at a concrete input (realistic-prompt conjunct). -/
theorem claim_C8_witness :
    has_record_contract
      [("prompt", PyVal.s (fallback_prompt_template 2 "can".toList "desk".toList)),
       ("scene", PyVal.s "desk".toList), ("object_count", PyVal.i 2),
       ("object", PyVal.s "can".toList)] :=
  claim_C8_amended.1 false (.error "down") "can".toList "desk".toList (some 2) 1 3 0
    _ rfl

/-- C8 (counterexample): `generate_simple_prompts` succeeds yet returns a
record batch in which not every record has the `object_count` field (none of
them do), so the claimed four-field contract fails for this prompt-producing
operation. -/
theorem claim_C8_counterexample :
    Except.map (fun recs => recs.all (fun rec => hasKey rec "object_count"))
      (generate_simple_prompts "empty can".toList 1 false (.error "down")) =
      .ok false := rfl

/-- C10: for every object type present in the predefined scene pool and every
count ≥ 1, `generate_llm_prompts` with `use_dynamic_scenes=False` and a
non-`None` `exact_objects` returns the empty list: the non-dynamic branch only
sets the object-count description and never enters the generation loop. -/
theorem claim_C10 (ot : PyStr) (cnt minO maxO k : Nat) (adv : Bool)
    (svcD : Except PyErr PyStr) (svcP : Nat → Except PyErr PyStr) (rnd : Nat → Nat)
    (hmem : (dictLookup OBJECT_SCENE_MAP ot).isSome = true) (_hcnt : 1 ≤ cnt) :
    generate_llm_prompts ot cnt minO maxO (some k) adv false svcD svcP rnd = .ok [] := by
  obtain ⟨v, hv⟩ := Option.isSome_iff_exists.mp hmem
  have hud : llm_use_dynamic ot false = false := by
    simp [llm_use_dynamic, hv]
  unfold generate_llm_prompts
  rw [hud]
  simp only [Bool.false_eq_true, if_false]
  rfl

/-- Witness for C10 at the concrete pool key "empty can". -/
theorem claim_C10_witness :
    generate_llm_prompts "empty can".toList 3 1 5 (some 2) false false (.error "down")
      (fun _ => .error "down") (fun _ => 0) = .ok [] :=
  claim_C10 "empty can".toList 3 1 5 2 false (.error "down") (fun _ => .error "down")
    (fun _ => 0) (by decide) (by decide)

/-! ## Whitespace-stripping toolkit (C5, C7) -/

lemma dropWhile_head_not {p : Char → Bool} :
    ∀ {l : List Char} {c : Char} {t : List Char}, l.dropWhile p = c :: t → p c = false := by
  intro l
  induction l with
  | nil => intro c t h; cases h
  | cons a l' ih =>
    intro c t h
    rw [List.dropWhile_cons] at h
    by_cases hp : p a = true
    · rw [if_pos hp] at h
      exact ih h
    · rw [if_neg hp] at h
      cases h
      simpa using hp

lemma dropWhile_eq_self_of_head {p : Char → Bool} {l : List Char}
    (h : ∀ c t, l = c :: t → p c = false) : l.dropWhile p = l := by
  cases l with
  | nil => rfl
  | cons a l' => rw [List.dropWhile_cons, h a l' rfl]; simp

lemma pyStrip_eq_self {l : List Char}
    (h1 : ∀ c t, l = c :: t → isWs c = false)
    (h2 : ∀ c t, l.reverse = c :: t → isWs c = false) : pyStrip l = l := by
  unfold pyStrip
  rw [dropWhile_eq_self_of_head h1, dropWhile_eq_self_of_head h2, List.reverse_reverse]

lemma pyStrip_length_le (l : List Char) : (pyStrip l).length ≤ l.length := by
  unfold pyStrip
  calc ((l.dropWhile isWs).reverse.dropWhile isWs).reverse.length
      = ((l.dropWhile isWs).reverse.dropWhile isWs).length := List.length_reverse _
    _ ≤ (l.dropWhile isWs).reverse.length := (List.dropWhile_suffix isWs).length_le
    _ = (l.dropWhile isWs).length := List.length_reverse _
    _ ≤ l.length := (List.dropWhile_suffix isWs).length_le

lemma dropWhile_eq_self_of_pyStrip_eq {l : List Char} (h : pyStrip l = l) :
    l.dropWhile isWs = l ∧ (l.reverse.dropWhile isWs) = l.reverse := by
  have hlen : (pyStrip l).length = l.length := by rw [h]
  have h1le : (l.dropWhile isWs).length ≤ l.length := (List.dropWhile_suffix isWs).length_le
  have h2le : ((l.dropWhile isWs).reverse.dropWhile isWs).length ≤ (l.dropWhile isWs).length := by
    calc ((l.dropWhile isWs).reverse.dropWhile isWs).length
        ≤ (l.dropWhile isWs).reverse.length := (List.dropWhile_suffix isWs).length_le
      _ = (l.dropWhile isWs).length := List.length_reverse _
  have hstriplen : (pyStrip l).length = ((l.dropWhile isWs).reverse.dropWhile isWs).length := by
    unfold pyStrip
    exact List.length_reverse _
  have hAlen : (l.dropWhile isWs).length = l.length := by omega
  have hA : l.dropWhile isWs = l :=
    (List.dropWhile_suffix isWs).eq_of_length hAlen
  refine ⟨hA, ?_⟩
  have hBlen : ((l.dropWhile isWs).reverse.dropWhile isWs).length = l.reverse.length := by
    rw [List.length_reverse]
    omega
  have := (List.dropWhile_suffix (l := (l.dropWhile isWs).reverse) isWs).eq_of_length
    (by rw [hA] at hBlen ⊢; exact hBlen)
  rw [hA] at this
  exact this

lemma pyStrip_bounds {l : List Char} (h : pyStrip l = l) :
    (∀ c t, l = c :: t → isWs c = false) ∧
    (∀ c t, l.reverse = c :: t → isWs c = false) := by
  obtain ⟨hA, hB⟩ := dropWhile_eq_self_of_pyStrip_eq h
  constructor
  · intro c t hl
    exact dropWhile_head_not (hl ▸ hA)
  · intro c t hl
    exact dropWhile_head_not (hl ▸ hB)

lemma pyStrip_head_not_ws {l : List Char} {c : Char} {t : List Char}
    (h : pyStrip l = c :: t) : isWs c = false := by
  have hB : ((l.dropWhile isWs).reverse.dropWhile isWs).reverse = c :: t := h
  have hlast : ((l.dropWhile isWs).reverse.dropWhile isWs).getLast? = some c := by
    rw [← List.head?_reverse, hB]
    rfl
  have hBne : (l.dropWhile isWs).reverse.dropWhile isWs ≠ [] := by
    intro hcon
    rw [hcon] at hlast
    cases hlast
  obtain ⟨pre, hpre⟩ := List.dropWhile_suffix (l := (l.dropWhile isWs).reverse) isWs
  have hlastA : (l.dropWhile isWs).reverse.getLast? = some c := by
    rw [← hpre, List.getLast?_append_of_ne_nil _ hBne]
    exact hlast
  have hheadA : (l.dropWhile isWs).head? = some c := by
    rw [← List.getLast?_reverse]
    exact hlastA
  cases hA : l.dropWhile isWs with
  | nil => rw [hA] at hheadA; cases hheadA
  | cons a t' =>
    rw [hA] at hheadA
    cases hheadA
    exact dropWhile_head_not hA

lemma pyStrip_last_not_ws {l : List Char} {c : Char} {t : List Char}
    (h : (pyStrip l).reverse = c :: t) : isWs c = false := by
  have hB : (l.dropWhile isWs).reverse.dropWhile isWs = c :: t := by
    have : (pyStrip l).reverse = (l.dropWhile isWs).reverse.dropWhile isWs := by
      unfold pyStrip
      rw [List.reverse_reverse]
    rw [← this]
    exact h
  exact dropWhile_head_not hB

lemma pyStrip_idem (l : List Char) : pyStrip (pyStrip l) = pyStrip l :=
  pyStrip_eq_self (fun c t h => pyStrip_head_not_ws h) (fun c t h => pyStrip_last_not_ws h)

/-! ## Parser blank-line handling (C5) -/

lemma stripFirstSep_fixed (seps : List PyStr) (scene : PyStr)
    (hs : pyStrip scene = scene) :
    pyStrip (stripFirstSep seps scene) = stripFirstSep seps scene := by
  induction seps with
  | nil => simpa [stripFirstSep] using hs
  | cons sep rest ih =>
    unfold stripFirstSep
    by_cases hc : isSubstr sep (scene.take 5) = true
    · rw [if_pos hc]
      cases ha : afterFirst sep scene with
      | some post => exact pyStrip_idem post
      | none => exact hs
    · rw [if_neg hc]
      exact ih

lemma cleanNumbering_fixed (scene : PyStr) (hs : pyStrip scene = scene) :
    pyStrip (cleanNumbering scene) = cleanNumbering scene := by
  unfold cleanNumbering
  by_cases hc : (2 < scene.length && firstIsDigit scene) = true
  · rw [if_pos hc]
    exact stripFirstSep_fixed numberingSeps scene hs
  · rw [if_neg hc]
    exact hs

/-- C5 (amended): every scene string emitted by the dynamic-scene parsing
stage is non-empty and already whitespace-trimmed (so in particular non-empty
after trimming); the diverse-scene parsing stage, by contrast, appends its
cleaned line unconditionally and can retain a blank scene (see the
counterexample). -/
theorem claim_C5_amended (raw : PyStr) :
    ∀ s ∈ parseDynamicSceneLines raw, s ≠ [] ∧ pyStrip s = s := by
  intro s hs
  simp only [parseDynamicSceneLines, List.mem_filterMap] at hs
  obtain ⟨scene, ⟨line, _hline, hf⟩, hg⟩ := hs
  unfold parse_line_filter at hf
  unfold parse_scene_clean at hg
  by_cases hc1 : ((pyStrip line).isEmpty || beginsWith ['#'] (pyStrip line)) = true
  · rw [if_pos hc1] at hf
    cases hf
  · rw [if_neg hc1] at hf
    cases hf
    have hfix : pyStrip (pyStrip line) = pyStrip line := pyStrip_idem line
    by_cases hc2 : ((pyStrip line).isEmpty || pyIsDigit (pyStrip line) ||
        beginsWith ['#'] (pyStrip line)) = true
    · rw [if_pos hc2] at hg
      cases hg
    · rw [if_neg hc2] at hg
      by_cases hc3 : (cleanNumbering (pyStrip line)).isEmpty = true
      · rw [if_pos hc3] at hg
        cases hg
      · rw [if_neg hc3] at hg
        cases hg
        constructor
        · intro hcon
          rw [hcon] at hc3
          exact hc3 rfl
        · exact cleanNumbering_fixed (pyStrip line) hfix

/-- Witness for C5 at a concrete raw response. -/
theorem claim_C5_witness :
    "Kitchen counter".toList ∈ parseDynamicSceneLines "1. Kitchen counter".toList ∧
    "Kitchen counter".toList ≠ ([] : PyStr) ∧
    pyStrip "Kitchen counter".toList = "Kitchen counter".toList :=
  ⟨by decide, (claim_C5_amended "1. Kitchen counter".toList "Kitchen counter".toList
    (by decide)).1, (claim_C5_amended "1. Kitchen counter".toList "Kitchen counter".toList
    (by decide)).2⟩

/-- C5 (counterexample): the diverse-scene parsing stage applied to the raw
text "12." retains the line even though it becomes empty after stripping its
numbering, emitting a blank scene. -/
theorem claim_C5_counterexample :
    parseDiverseSceneLines "12.".toList = [[]] ∧
    ([] : PyStr) ∈ parseDiverseSceneLines "12.".toList :=
  ⟨rfl, by decide⟩

/-! ## Well-formed numbered responses (C7) -/

/-- The numbered lines `"k. X1"`, `"k+1. X2"`, … produced by a well-behaved
external response. -/
def numberedFrom (k : Nat) : List PyStr → List PyStr
  | [] => []
  | X :: Xs => (natChars k ++ '.' :: ' ' :: X) :: numberedFrom (k + 1) Xs

/-- Join lines with `'\n'` (the inverse of splitting a newline-free line
list). -/
def joinLines : List PyStr → PyStr
  | [] => []
  | [l] => l
  | l :: l2 :: ls => l ++ '\n' :: joinLines (l2 :: ls)

lemma isDigitCh_toNat {c : Char} (h : isDigitCh c = true) :
    48 ≤ c.toNat ∧ c.toNat ≤ 57 := by
  simpa [isDigitCh, Bool.and_eq_true, decide_eq_true_eq] using h

lemma isDigitCh_not_ws {c : Char} (h : isDigitCh c = true) : isWs c = false := by
  obtain ⟨h1, h2⟩ := isDigitCh_toNat h
  simp only [isWs, Bool.or_eq_false_iff, decide_eq_false_iff_not]
  omega

lemma isDigitCh_ne_of_toNat {c : Char} (h : isDigitCh c = true) {d : Char}
    (hd : d.toNat < 48 ∨ 57 < d.toNat) : c ≠ d := by
  obtain ⟨h1, h2⟩ := isDigitCh_toNat h
  intro hcon
  subst hcon
  omega

lemma dot_toNat : ('.' : Char).toNat = 46 := rfl

lemma hash_toNat : ('#' : Char).toNat = 35 := rfl

lemma newline_toNat : ('\n' : Char).toNat = 10 := rfl

lemma splitOnChar_no_c {c : Char} : ∀ {l : PyStr}, c ∉ l → splitOnChar c l = [l] := by
  intro l
  induction l with
  | nil => intro _; rfl
  | cons a rest ih =>
    intro h
    have hac : ¬a = c := fun hcon => h (hcon ▸ List.mem_cons_self a rest)
    have hrest : c ∉ rest := fun hcon => h (List.mem_cons_of_mem a hcon)
    unfold splitOnChar
    rw [if_neg hac, ih hrest]

lemma splitOnChar_append {c : Char} :
    ∀ {l : PyStr}, c ∉ l → ∀ (r : PyStr), splitOnChar c (l ++ c :: r) = l :: splitOnChar c r := by
  intro l
  induction l with
  | nil =>
    intro _ r
    simp only [List.nil_append]
    rw [splitOnChar, if_pos rfl]
  | cons a rest ih =>
    intro h r
    have hac : ¬a = c := fun hcon => h (hcon ▸ List.mem_cons_self a rest)
    have hrest : c ∉ rest := fun hcon => h (List.mem_cons_of_mem a hcon)
    simp only [List.cons_append]
    rw [splitOnChar, if_neg hac, ih hrest r]

lemma splitOnChar_joinLines :
    ∀ {ls : List PyStr}, ls ≠ [] → (∀ l ∈ ls, '\n' ∉ l) →
      splitOnChar '\n' (joinLines ls) = ls := by
  intro ls
  induction ls with
  | nil => intro h _; exact absurd rfl h
  | cons l ls' ih =>
    intro _ hnl
    cases ls' with
    | nil =>
      exact splitOnChar_no_c (hnl l (List.mem_cons_self _ _))
    | cons l2 ls'' =>
      show splitOnChar '\n' (l ++ '\n' :: joinLines (l2 :: ls'')) = l :: (l2 :: ls'')
      rw [splitOnChar_append (hnl l (List.mem_cons_self _ _)),
        ih (by simp) (fun x hx => hnl x (List.mem_cons_of_mem l hx))]

lemma digitOf_isDigit : ∀ k, isDigitCh (digitOf k) = true := by
  intro k
  unfold digitOf
  split <;> rfl

lemma natCharsAux_all_digits :
    ∀ (fuel n : Nat), ∀ c ∈ natCharsAux fuel n, isDigitCh c = true := by
  intro fuel
  induction fuel with
  | zero => intro n c hc; simp [natCharsAux] at hc
  | succ fuel ih =>
    intro n c hc
    rw [natCharsAux] at hc
    by_cases hn : n < 10
    · rw [if_pos hn] at hc
      simp only [List.mem_singleton] at hc
      exact hc ▸ digitOf_isDigit n
    · rw [if_neg hn] at hc
      rcases List.mem_append.mp hc with h | h
      · exact ih (n / 10) c h
      · simp only [List.mem_singleton] at h
        exact h ▸ digitOf_isDigit (n % 10)

lemma natChars_all_digits (n : Nat) : ∀ c ∈ natChars n, isDigitCh c = true :=
  natCharsAux_all_digits (n + 1) n

lemma natCharsAux_ne_nil : ∀ (fuel n : Nat), 0 < fuel → natCharsAux fuel n ≠ [] := by
  intro fuel n hf
  cases fuel with
  | zero => omega
  | succ fuel =>
    rw [natCharsAux]
    by_cases hn : n < 10
    · rw [if_pos hn]; simp
    · rw [if_neg hn]; simp

lemma natChars_ne_nil (n : Nat) : natChars n ≠ [] :=
  natCharsAux_ne_nil (n + 1) n n.succ_pos

lemma natCharsAux_len1 (fuel n : Nat) (hf : 0 < fuel) (hn : n ≤ 9) :
    (natCharsAux fuel n).length = 1 := by
  cases fuel with
  | zero => omega
  | succ fuel =>
    rw [natCharsAux, if_pos (by omega)]
    rfl

lemma natCharsAux_len2 : ∀ (fuel n : Nat), n < fuel → n ≤ 99 →
    (natCharsAux fuel n).length ≤ 2 := by
  intro fuel
  induction fuel with
  | zero => intro n h _; omega
  | succ fuel ih =>
    intro n hlt hn
    rw [natCharsAux]
    by_cases h10 : n < 10
    · rw [if_pos h10]; simp
    · rw [if_neg h10]
      rw [List.length_append]
      have hdiv : n / 10 ≤ 9 := by omega
      have hdivlt : n / 10 < fuel := by
        have := Nat.div_lt_self (by omega : 0 < n) (by omega : 1 < 10)
        omega
      rw [natCharsAux_len1 fuel (n / 10) (by omega) hdiv]
      simp

lemma natChars_len3 {n : Nat} (hn : n ≤ 999) : (natChars n).length ≤ 3 := by
  unfold natChars
  rw [natCharsAux]
  by_cases h10 : n < 10
  · rw [if_pos h10]; simp
  · rw [if_neg h10]
    rw [List.length_append]
    have hdiv : n / 10 ≤ 99 := by omega
    have hdivlt : n / 10 < n := Nat.div_lt_self (by omega) (by omega)
    have := natCharsAux_len2 n (n / 10) hdivlt hdiv
    simp
    omega

lemma strip_numbered_line {d X : PyStr} (hd : d ≠ [])
    (hdd : ∀ c ∈ d, isDigitCh c = true) (hX : pyStrip X = X) (hXne : X ≠ []) :
    pyStrip (d ++ '.' :: ' ' :: X) = d ++ '.' :: ' ' :: X := by
  apply pyStrip_eq_self
  · intro c t hl
    cases d with
    | nil => exact absurd rfl hd
    | cons a d' =>
      rw [List.cons_append] at hl
      cases hl
      exact isDigitCh_not_ws (hdd c (List.mem_cons_self _ _))
  · intro c t hl
    rw [List.reverse_append] at hl
    have hrev : ('.' :: ' ' :: X).reverse = X.reverse ++ [' ', '.'] := by
      simp
    rw [hrev] at hl
    cases hXr : X.reverse with
    | nil =>
      have : X = [] := by
        have := congrArg List.reverse hXr
        simpa using this
      exact absurd this hXne
    | cons c0 t0 =>
      rw [hXr] at hl
      simp only [List.cons_append] at hl
      cases hl
      exact (pyStrip_bounds hX).2 _ _ hXr

lemma beginsWith_dot_space (X : PyStr) :
    beginsWith ['.', ' '] ('.' :: ' ' :: X) = true := rfl

lemma beginsWith_cons_ne {p : Char} {ps : List Char} {a : Char} {rest : List Char}
    (h : p ≠ a) : beginsWith (p :: ps) (a :: rest) = false := by
  unfold beginsWith
  simp [h]

lemma isSubstr_of_beginsWith {n h : PyStr} (hb : beginsWith n h = true) :
    isSubstr n h = true := by
  cases h with
  | nil =>
    cases n with
    | nil => rfl
    | cons p ps => cases hb
  | cons a rest =>
    unfold isSubstr
    rw [hb]
    rfl

lemma isSubstr_cons_of {n : PyStr} {a : Char} {rest : PyStr}
    (h : isSubstr n rest = true) : isSubstr n (a :: rest) = true := by
  unfold isSubstr
  rw [h]
  simp

lemma dot_ne_digit {c : Char} (hc : isDigitCh c = true) : ('.' : Char) ≠ c := by
  intro hcon
  have := isDigitCh_toNat hc
  rw [← hcon] at this
  rw [dot_toNat] at this
  omega

lemma isSubstr_dot_space_take5 {d X : PyStr} (hd : d ≠ []) (hlen : d.length ≤ 3)
    (hdd : ∀ c ∈ d, isDigitCh c = true) :
    isSubstr ['.', ' '] ((d ++ '.' :: ' ' :: X).take 5) = true := by
  rcases d with _ | ⟨a, _ | ⟨b, _ | ⟨c, _ | ⟨e, d'⟩⟩⟩⟩
  · exact absurd rfl hd
  · show isSubstr ['.', ' '] (a :: '.' :: ' ' :: X.take 2) = true
    exact isSubstr_cons_of (isSubstr_of_beginsWith (beginsWith_dot_space _))
  · show isSubstr ['.', ' '] (a :: b :: '.' :: ' ' :: X.take 1) = true
    exact isSubstr_cons_of (isSubstr_cons_of
      (isSubstr_of_beginsWith (beginsWith_dot_space _)))
  · show isSubstr ['.', ' '] (a :: b :: c :: '.' :: ' ' :: X.take 0) = true
    exact isSubstr_cons_of (isSubstr_cons_of (isSubstr_cons_of
      (isSubstr_of_beginsWith (beginsWith_dot_space _))))
  · simp at hlen

lemma afterFirst_numbered {d : PyStr} (X : PyStr)
    (hdd : ∀ c ∈ d, isDigitCh c = true) :
    afterFirst ['.', ' '] (d ++ '.' :: ' ' :: X) = some X := by
  induction d with
  | nil =>
    simp only [List.nil_append]
    rw [afterFirst, if_pos (beginsWith_dot_space X)]
    rfl
  | cons a d' ih =>
    have ha := hdd a (List.mem_cons_self _ _)
    simp only [List.cons_append]
    rw [afterFirst]
    rw [if_neg (by rw [beginsWith_cons_ne (dot_ne_digit ha)]; simp)]
    exact ih (fun c hc => hdd c (List.mem_cons_of_mem a hc))

lemma hash_ne_digit {c : Char} (hc : isDigitCh c = true) : ('#' : Char) ≠ c :=
  (isDigitCh_ne_of_toNat hc (Or.inl (by rw [hash_toNat]; omega))).symm

lemma cleanNumbering_numbered {d X : PyStr} (hd : d ≠ []) (hlen : d.length ≤ 3)
    (hdd : ∀ c ∈ d, isDigitCh c = true) (hX : pyStrip X = X) :
    cleanNumbering (d ++ '.' :: ' ' :: X) = X := by
  unfold cleanNumbering
  have hcond : (2 < (d ++ '.' :: ' ' :: X).length
      && firstIsDigit (d ++ '.' :: ' ' :: X)) = true := by
    rw [Bool.and_eq_true]
    constructor
    · have h1 : 1 ≤ d.length := List.length_pos.mpr hd
      simp only [List.length_append, List.length_cons, decide_eq_true_eq]
      omega
    · cases d with
      | nil => exact absurd rfl hd
      | cons a d' =>
        show firstIsDigit (a :: (d' ++ '.' :: ' ' :: X)) = true
        exact hdd a (List.mem_cons_self _ _)
  rw [if_pos hcond]
  show stripFirstSep (['.', ' '] :: [')', ' '] :: ['-', ' '] :: [':', ' '] :: [])
    (d ++ '.' :: ' ' :: X) = X
  rw [stripFirstSep, if_pos (isSubstr_dot_space_take5 hd hlen hdd),
    afterFirst_numbered X hdd]
  exact hX

lemma numbered_not_empty_or_hash {d X : PyStr} (hd : d ≠ [])
    (hdd : ∀ c ∈ d, isDigitCh c = true) :
    ((d ++ '.' :: ' ' :: X).isEmpty || beginsWith ['#'] (d ++ '.' :: ' ' :: X)) = false := by
  cases d with
  | nil => exact absurd rfl hd
  | cons a d' =>
    have ha := hdd a (List.mem_cons_self _ _)
    simp only [List.cons_append, List.isEmpty_cons, Bool.false_or]
    exact beginsWith_cons_ne (hash_ne_digit ha)

lemma numbered_not_digit {d X : PyStr} : pyIsDigit (d ++ '.' :: ' ' :: X) = false := by
  have hdot : ('.' : Char) ∈ d ++ '.' :: ' ' :: X :=
    List.mem_append_right _ (List.mem_cons_self _ _)
  have hall : (d ++ '.' :: ' ' :: X).all isDigitCh = false := by
    by_contra hcon
    rw [Bool.not_eq_false] at hcon
    have := List.all_eq_true.mp hcon '.' hdot
    exact absurd this (by decide)
  unfold pyIsDigit
  rw [hall, Bool.and_false]

lemma parse_line_filter_numbered {d X : PyStr} (hd : d ≠ [])
    (hdd : ∀ c ∈ d, isDigitCh c = true) (hX : pyStrip X = X) (hXne : X ≠ []) :
    parse_line_filter (d ++ '.' :: ' ' :: X) = some (d ++ '.' :: ' ' :: X) := by
  unfold parse_line_filter
  rw [strip_numbered_line hd hdd hX hXne]
  rw [if_neg (by rw [numbered_not_empty_or_hash hd hdd]; simp)]

lemma parse_scene_clean_numbered {d X : PyStr} (hd : d ≠ []) (hlen : d.length ≤ 3)
    (hdd : ∀ c ∈ d, isDigitCh c = true) (hX : pyStrip X = X) (hXne : X ≠ []) :
    parse_scene_clean (d ++ '.' :: ' ' :: X) = some X := by
  unfold parse_scene_clean
  have hc1 := numbered_not_empty_or_hash (X := X) hd hdd
  rw [Bool.or_eq_false_iff] at hc1
  have hcond : ((d ++ '.' :: ' ' :: X).isEmpty || pyIsDigit (d ++ '.' :: ' ' :: X)
      || beginsWith ['#'] (d ++ '.' :: ' ' :: X)) = false := by
    rw [hc1.1, hc1.2, numbered_not_digit]
    rfl
  rw [if_neg (by rw [hcond]; simp)]
  rw [cleanNumbering_numbered hd hlen hdd hX]
  rw [if_neg (by rw [List.isEmpty_eq_true]; exact hXne)]

lemma filterMap_parse_numbered :
    ∀ (Xs : List PyStr) (k : Nat), 1 ≤ k → k + Xs.length ≤ 1000 →
      (∀ X ∈ Xs, pyStrip X = X ∧ X ≠ []) →
      ((numberedFrom k Xs).filterMap parse_line_filter).filterMap parse_scene_clean = Xs := by
  intro Xs
  induction Xs with
  | nil => intro k _ _ _; rfl
  | cons X Xs' ih =>
    intro k hk1 hk2 hX
    obtain ⟨hXs, hXne⟩ := hX X (List.mem_cons_self _ _)
    have hd : natChars k ≠ [] := natChars_ne_nil k
    have hdd := natChars_all_digits k
    have hlen : (natChars k).length ≤ 3 := by
      apply natChars_len3
      simp only [List.length_cons] at hk2
      omega
    show (((natChars k ++ '.' :: ' ' :: X) :: numberedFrom (k + 1) Xs').filterMap
      parse_line_filter).filterMap parse_scene_clean = X :: Xs'
    rw [List.filterMap_cons_some (parse_line_filter_numbered hd hdd hXs hXne)]
    rw [List.filterMap_cons_some (parse_scene_clean_numbered hd hlen hdd hXs hXne)]
    rw [ih (k + 1) (by omega) (by simp only [List.length_cons] at hk2; omega)
      (fun Y hY => hX Y (List.mem_cons_of_mem X hY))]

lemma numberedFrom_no_newline :
    ∀ (Xs : List PyStr) (k : Nat), (∀ X ∈ Xs, '\n' ∉ X) →
      ∀ l ∈ numberedFrom k Xs, '\n' ∉ l := by
  intro Xs
  induction Xs with
  | nil => intro k _ l hl; simp [numberedFrom] at hl
  | cons X Xs' ih =>
    intro k hX l hl
    rcases List.mem_cons.mp hl with rfl | hl'
    · intro hcon
      rcases List.mem_append.mp hcon with hmem | hmem
      · have := natChars_all_digits k _ hmem
        obtain ⟨h1, _⟩ := isDigitCh_toNat this
        rw [newline_toNat] at h1
        omega
      · rcases List.mem_cons.mp hmem with heq | hmem2
        · cases heq
        · rcases List.mem_cons.mp hmem2 with heq | hmem3
          · cases heq
          · exact hX X (List.mem_cons_self _ _) hmem3
    · exact ih (k + 1) (fun Y hY => hX Y (List.mem_cons_of_mem X hY)) l hl'

/-- C7 (amended): for every list of at most 999 scene texts, each trimmed,
non-empty, not a pure digit string, not starting with `#` and newline-free,
the response parser applied to the raw text made of the numbered lines
`"1. X1"`, …, `"N. XN"` returns exactly the strings `X1 … XN` in order.  (For
`N ≥ 1000` the separator is no longer found within the first five characters
of the line and the claim fails — see the counterexample.) -/
theorem claim_C7_amended (Xs : List PyStr) (hN : Xs.length ≤ 999)
    (hX : ∀ X ∈ Xs, pyStrip X = X ∧ X ≠ [] ∧ pyIsDigit X = false ∧
      beginsWith ['#'] X = false ∧ '\n' ∉ X) :
    parseDynamicSceneLines (joinLines (numberedFrom 1 Xs)) = Xs := by
  cases Xs with
  | nil => rfl
  | cons X0 Xs0 =>
    unfold parseDynamicSceneLines
    rw [splitOnChar_joinLines (by simp [numberedFrom])
      (numberedFrom_no_newline (X0 :: Xs0) 1 (fun Y hY => ((hX Y hY).2.2.2.2)))]
    exact filterMap_parse_numbered (X0 :: Xs0) 1 (le_refl 1)
      (by simp only [List.length_cons]; simp only [List.length_cons] at hN; omega)
      (fun Y hY => ⟨(hX Y hY).1, (hX Y hY).2.1⟩)

/-- Witness for C7 at a concrete two-line response. -/
theorem claim_C7_witness :
    parseDynamicSceneLines
      (joinLines (numberedFrom 1 ["Kitchen counter with cans".toList,
        "Park bench under trees".toList])) =
      ["Kitchen counter with cans".toList, "Park bench under trees".toList] :=
  claim_C7_amended ["Kitchen counter with cans".toList, "Park bench under trees".toList]
    (by decide) (by decide)

lemma numberedFrom_length : ∀ (Xs : List PyStr) (k : Nat),
    (numberedFrom k Xs).length = Xs.length := by
  intro Xs
  induction Xs with
  | nil => intro k; rfl
  | cons X Xs' ih =>
    intro k
    show (numberedFrom (k + 1) Xs').length + 1 = Xs'.length + 1
    rw [ih]

lemma numberedFrom_append :
    ∀ (A B : List PyStr) (k : Nat),
      numberedFrom k (A ++ B) = numberedFrom k A ++ numberedFrom (k + A.length) B := by
  intro A
  induction A with
  | nil => intro B k; simp [numberedFrom]
  | cons X A' ih =>
    intro B k
    show (natChars k ++ '.' :: ' ' :: X) :: numberedFrom (k + 1) (A' ++ B) =
      (natChars k ++ '.' :: ' ' :: X) :: numberedFrom (k + 1) A' ++
        numberedFrom (k + (A'.length + 1)) B
    rw [ih]
    simp only [List.cons_append, List.cons.injEq, true_and]
    congr 2
    omega

set_option maxRecDepth 40000 in
/-- C7 (counterexample): with 1000 well-formed numbered lines `"1. X"` …
`"1000. X"`, the parser does not return the 1000 texts: the separator of line
1000 falls outside the five-character window, so that line is kept as
`"1000. X"` instead of `"X"`. -/
theorem claim_C7_counterexample :
    parseDynamicSceneLines (joinLines (numberedFrom 1 (List.replicate 1000 "X".toList))) ≠
      List.replicate 1000 "X".toList := by
  have hsplit : List.replicate 1000 ("X".toList) =
      List.replicate 999 "X".toList ++ ["X".toList] := List.replicate_succ' 999 _
  have hval : parseDynamicSceneLines
      (joinLines (numberedFrom 1 (List.replicate 1000 "X".toList))) =
      List.replicate 999 "X".toList ++ ["1000. X".toList] := by
    unfold parseDynamicSceneLines
    rw [splitOnChar_joinLines
      (by
        intro hcon
        have hlencon := congrArg List.length hcon
        rw [numberedFrom_length, List.length_replicate] at hlencon
        cases hlencon)
      (numberedFrom_no_newline _ 1 (fun Y hY => by
        rw [List.eq_of_mem_replicate hY]
        decide))]
    rw [hsplit, numberedFrom_append]
    rw [List.filterMap_append, List.filterMap_append]
    rw [filterMap_parse_numbered (List.replicate 999 "X".toList) 1 (le_refl 1)
      (by rw [List.length_replicate])
      (fun Y hY => by rw [List.eq_of_mem_replicate hY]; exact ⟨by decide, by decide⟩)]
    congr 1
  rw [hval, hsplit]
  intro hcon
  have := List.append_cancel_left hcon
  cases this
